import Mathlib

/-!
Shallow embedding of the resilient WebSocket update channel of the MidPrint
frontend, in its two observed revisions:

* namespace `TC` — the revision embedded in
  `src/frontend/src/lib/TaskContext.tsx` (class `WebSocketServiceImpl`,
  lines 497-965): outbound message queue with bounded retries, pending
  subscription list, duplicate-callback guard, attempt budget 10,
  backoff `min(1000 * 2^(n-1), 30000) + jitter`.

* namespace `WS` — the revision in `src/frontend/src/lib/websocket.ts`:
  no outbound queue, unconditional callback registration, attempt budget 5,
  backoff `min(1000 * 2^n, 30000)` with no jitter.

Callbacks and global handlers are identified by natural numbers (JavaScript
compares them by reference identity).  JavaScript `Map` objects are embedded
as insertion-ordered association lists.  Timers are embedded as armed/unarmed
flags (the reconnect timer additionally records its computed delay), and the
event loop is driven explicitly: each timer callback and each socket event is
a separate transition function on the state.  Side effects visible outside
the class (opening and closing the transport, handing a frame to
`WebSocket.send`, invoking a subscriber callback or a global handler,
console output) are collected in an effect trace.
-/

/-- Outbound message payloads that appear in the source: the control frames
built by the service itself, plus caller-supplied payloads (`user`),
identified by a tag. -/
inductive Payload
  | subscribeTask (taskId : String)
  | unsubscribeTask (taskId : String)
  | ping (timestamp : Nat)
  | user (tag : Nat)
deriving DecidableEq, Repr

/-- An entry of the outbound queue, mirroring the `QueueItem` interface of
`TaskContext.tsx` (lines 506-512); `queueMessage` always populates every
field. -/
structure QueueItem where
  message : Payload
  retry : Bool
  maxRetries : Nat
  retries : Nat
deriving DecidableEq, Repr

/-- Observable side effects of the service, in program order. -/
inductive Effect
  | openTransport
  | closeTransport
  | wsSend (p : Payload)
  | invokeCallback (cb : Nat) (d : Nat)
  | invokeHandler (h : Nat)
  | logNote
deriving DecidableEq, Repr

/-- Inbound message envelope after `JSON.parse`, restricted to the fields the
router reads: `type`, `task_id`, `data`.  A frame whose parse fails is
represented as `none` at the call site of `handleMessage`. -/
structure InMessage where
  type : String
  task_id : Option String
  data : Nat
deriving DecidableEq, Repr

/-- JavaScript truthiness of the optional `task_id` field: present and
non-empty. -/
def truthyId (o : Option String) : Bool :=
  match o with
  | some s => s ≠ ""
  | none => false

/-- JavaScript `n || d` on numbers with `d` a non-zero literal: `0` is falsy. -/
def jsOrNat (n d : Nat) : Nat :=
  if n = 0 then d else n

/-- Lookup in an insertion-ordered association list (JavaScript `Map.get`). -/
def mapGet (m : List (String × List Nat)) (k : String) : Option (List Nat) :=
  match m with
  | [] => none
  | (k', v) :: rest => if k' = k then some v else mapGet rest k

/-- JavaScript `Map.has`. -/
def mapHas (m : List (String × List Nat)) (k : String) : Bool :=
  (mapGet m k).isSome

/-- JavaScript `Map.set`: updates the existing entry in place, otherwise
appends at the end (insertion order is preserved). -/
def mapSet (m : List (String × List Nat)) (k : String) (v : List Nat) :
    List (String × List Nat) :=
  match m with
  | [] => [(k, v)]
  | (k', v') :: rest => if k' = k then (k, v) :: rest else (k', v') :: mapSet rest k v

/-- JavaScript `Map.delete`. -/
def mapDelete (m : List (String × List Nat)) (k : String) :
    List (String × List Nat) :=
  match m with
  | [] => []
  | (k', v') :: rest => if k' = k then mapDelete rest k else (k', v') :: mapDelete rest k

/-- Environment of one transition: resolves the nondeterminism of the host —
whether `ws.send` succeeds on a given frame, whether the `WebSocket`
constructor succeeds, whether a callback or handler throws, the jitter drawn
by `Math.random() * 1000` (a natural below 1000), and the current clock. -/
structure Env where
  wsSendOk : Payload → Bool
  newSocketOk : Bool
  cbThrows : Nat → Nat → Bool
  handlerThrows : Nat → Bool
  jitter : Nat
  now : Nat

/-- WebSocket ready states. -/
inductive ReadyState
  | connecting
  | opened
  | closing
  | closed
deriving DecidableEq, Repr

namespace TC

/-- Fields of `WebSocketServiceImpl` in `TaskContext.tsx` (lines 532-549).
Timer handles are embedded as armed flags; `reconnectTimeoutId` records the
delay that was scheduled.  `maxReconnectAttempts` is the constant 10. -/
structure State where
  ws : Option ReadyState
  taskSubscriptions : List (String × List Nat)
  messageQueue : List QueueItem
  globalMessageHandlers : List Nat
  reconnectAttempts : Nat
  reconnectTimeoutId : Option Nat
  pingIntervalId : Bool
  messageProcessingIntervalId : Bool
  lastPongTime : Nat
  isBrowser : Bool
  isConnecting : Bool
  connectionTimeout : Bool
  backendAvailable : Bool
  pendingSubscriptions : List String
deriving DecidableEq, Repr

/-- Field values at construction time, in a browser environment. -/
def initialState : State :=
  { ws := none
    taskSubscriptions := []
    messageQueue := []
    globalMessageHandlers := []
    reconnectAttempts := 0
    reconnectTimeoutId := none
    pingIntervalId := false
    messageProcessingIntervalId := false
    lastPongTime := 0
    isBrowser := true
    isConnecting := false
    connectionTimeout := false
    backendAvailable := true
    pendingSubscriptions := [] }

/-- `isConnected()` (line 734): a transport exists and its ready state is
`OPEN`. -/
def isConnected (st : State) : Bool :=
  st.ws = some ReadyState.opened

/-- Backoff delay of `attemptReconnect` (lines 940-942):
`Math.min(1000 * Math.pow(2, n - 1), 30000)` plus the jitter drawn from
`Math.random() * 1000`. -/
def reconnectDelay (n : Nat) (jitter : Nat) : Nat :=
  min (1000 * 2 ^ (n - 1)) 30000 + jitter

/-- `attemptReconnect()` (lines 933-950): a no-op while a reconnect timer is
armed; otherwise increments the attempt counter and arms the timer with the
backoff delay.  The timer callback is `reconnectTimerFires` below. -/
def attemptReconnect (env : Env) (st : State) : State × List Effect :=
  match st.reconnectTimeoutId with
  | some _ => (st, [])
  | none =>
      let n := st.reconnectAttempts + 1
      ({ st with reconnectAttempts := n
                 reconnectTimeoutId := some (reconnectDelay n env.jitter) }, [])

/-- `connect()` (lines 576-618).  Returns without effect during SSR, while
connecting, while a transport is open or connecting, once the attempt budget
(10) is exhausted, or once the backend has been marked unavailable.
Otherwise opens a new transport and arms the 10-second connection timeout;
if the `WebSocket` constructor throws, the error is caught and a reconnect
is scheduled. -/
def connect (env : Env) (st : State) : State × List Effect :=
  if !st.isBrowser then (st, [])
  else if st.isConnecting
      || (match st.ws with
          | some rs => rs = ReadyState.opened || rs = ReadyState.connecting
          | none => false)
      || decide (st.reconnectAttempts ≥ 10)
      || !st.backendAvailable then (st, [])
  else
    let st1 := { st with isConnecting := true }
    if env.newSocketOk then
      ({ st1 with ws := some ReadyState.connecting, connectionTimeout := true },
       [Effect.openTransport])
    else
      attemptReconnect env { st1 with isConnecting := false }

/-- `disconnect()` (lines 620-651): clears the connection timeout, closes and
drops the transport, clears the ping, queue-flush and reconnect timers, and
resets the attempt counter to zero. -/
def disconnect (st : State) : State × List Effect :=
  if !st.isBrowser then (st, [])
  else
    let st1 := { st with isConnecting := false, connectionTimeout := false }
    let (st2, effs) :=
      match st1.ws with
      | some _ => ({ st1 with ws := none }, [Effect.closeTransport])
      | none => (st1, [])
    ({ st2 with pingIntervalId := false
                messageProcessingIntervalId := false
                reconnectTimeoutId := none
                reconnectAttempts := 0 }, effs)

/-- `queueMessage` (lines 764-777): appends the item with `retries := 0` and
lazily arms the queue-flush interval. -/
def queueMessage (st : State) (message : Payload) (retry : Bool)
    (maxRetries : Nat) : State × List Effect :=
  let st1 := { st with
    messageQueue := st.messageQueue ++ [⟨message, retry, maxRetries, 0⟩] }
  if !st1.messageProcessingIntervalId && st1.isBrowser then
    ({ st1 with messageProcessingIntervalId := true }, [])
  else (st1, [])

/-- Fallback branch of `send` (lines 756-761): when the backend has been
marked unavailable, a `subscribe_task` frame with a truthy `task_id` logs an
informational note; everything else is dropped silently. -/
def sendUnavailableFallback (st : State) (data : Payload) : State × List Effect :=
  match data with
  | Payload.subscribeTask t => if t ≠ "" then (st, [Effect.logNote]) else (st, [])
  | _ => (st, [])

/-- `send(data, retry, maxRetries)` (lines 738-762).  Connected: hand the
frame to the transport, catching a throwing `ws.send` and enqueueing the
message when `retry` is set.  Not connected and `retry`: enqueue and trigger
`connect()` when no attempt is in flight.  Not connected and not `retry`:
drop, with an informational log for `subscribe_task` frames when the backend
has been marked unavailable. -/
def send (env : Env) (st : State) (data : Payload) (retry : Bool)
    (maxRetries : Nat) : State × List Effect :=
  if isConnected st then
    if env.wsSendOk data then (st, [Effect.wsSend data])
    else if retry then
      let q := queueMessage st data true maxRetries
      (q.1, [Effect.wsSend data, Effect.logNote] ++ q.2)
    else (st, [Effect.wsSend data, Effect.logNote])
  else if retry then
    let q := queueMessage st data true maxRetries
    if !q.1.isConnecting && q.1.ws = none then
      let c := connect env q.1
      (c.1, q.2 ++ c.2)
    else q
  else if st.isBrowser && !st.backendAvailable then
    sendUnavailableFallback st data
  else (st, [])

/-- Loop body of `processMessageQueue` (lines 793-810): shift the head, hand
it to the transport; on a throwing send, re-enqueue at the tail with
`retries + 1` when `retry` is set and `retries < (maxRetries || 3)`.  The
fuel is the iteration count `Math.min(5, queue.length)` computed up front. -/
def processLoop (env : Env) : Nat → List QueueItem → List QueueItem × List Effect
  | 0, queue => (queue, [])
  | _ + 1, [] => ([], [])
  | fuel + 1, item :: rest =>
      if env.wsSendOk item.message then
        let r := processLoop env fuel rest
        (r.1, Effect.wsSend item.message :: r.2)
      else
        let rest' :=
          if item.retry && decide (item.retries < jsOrNat item.maxRetries 3) then
            rest ++ [{ item with retries := item.retries + 1 }]
          else rest
        let r := processLoop env fuel rest'
        (r.1, Effect.wsSend item.message :: Effect.logNote :: r.2)

/-- `processMessageQueue()` (lines 787-817): a no-op while not connected;
otherwise processes up to 5 messages and stops the flush interval once the
queue is empty. -/
def processMessageQueue (env : Env) (st : State) : State × List Effect :=
  if !isConnected st then (st, [])
  else
    let r := processLoop env (min 5 st.messageQueue.length) st.messageQueue
    let st1 := { st with messageQueue := r.1 }
    if r.1.length = 0 && st1.messageProcessingIntervalId then
      ({ st1 with messageProcessingIntervalId := false }, r.2)
    else (st1, r.2)

/-- Registration step of `subscribeToTask` (lines 659-670): create the
entry if missing, then append the callback only if it is not already
registered. -/
def registerCallback (ts : List (String × List Nat)) (taskId : String)
    (cb : Nat) : List (String × List Nat) :=
  let ts1 := if !mapHas ts taskId then mapSet ts taskId [] else ts
  let callbacks := (mapGet ts1 taskId).getD []
  if !callbacks.contains cb then mapSet ts1 taskId (callbacks ++ [cb]) else ts1

/-- `subscribeToTask(taskId, callback)` (lines 653-694): rejects an empty
`taskId`; appends the callback only if not already registered; when
connected sends `subscribe_task`, otherwise records the task as pending and
triggers `connect()` when no attempt is in flight. -/
def subscribeToTask (env : Env) (st : State) (taskId : String) (cb : Nat) :
    State × List Effect :=
  if taskId = "" then (st, [Effect.logNote])
  else
    let st2 :=
      { st with taskSubscriptions := registerCallback st.taskSubscriptions taskId cb }
    if isConnected st2 then
      send env st2 (Payload.subscribeTask taskId) true 3
    else
      if !st2.pendingSubscriptions.contains taskId then
        let st3 := { st2 with pendingSubscriptions := st2.pendingSubscriptions ++ [taskId] }
        if !st3.isConnecting && st3.ws = none then connect env st3
        else (st3, [])
      else (st2, [])

/-- `unsubscribeFromTask(taskId, callback)` (lines 696-722): removes the
first occurrence of the callback; when the list empties, deletes the entry,
removes the task from the pending list and, if connected, sends
`unsubscribe_task`. -/
def unsubscribeFromTask (env : Env) (st : State) (taskId : String) (cb : Nat) :
    State × List Effect :=
  let callbacks := (mapGet st.taskSubscriptions taskId).getD []
  if callbacks.contains cb then
    let callbacks' := callbacks.erase cb
    if callbacks'.length = 0 then
      let st1 := { st with
        taskSubscriptions := mapDelete st.taskSubscriptions taskId
        pendingSubscriptions := st.pendingSubscriptions.erase taskId }
      if isConnected st1 then send env st1 (Payload.unsubscribeTask taskId) true 3
      else (st1, [])
    else
      ({ st with taskSubscriptions := mapSet st.taskSubscriptions taskId callbacks' }, [])
  else (st, [])

/-- `addMessageHandler(handler)` (lines 724-732), registration half. -/
def addMessageHandler (st : State) (h : Nat) : State :=
  { st with globalMessageHandlers := st.globalMessageHandlers ++ [h] }

/-- The unsubscribe closure returned by `addMessageHandler`. -/
def removeMessageHandler (st : State) (h : Nat) : State :=
  { st with globalMessageHandlers := st.globalMessageHandlers.erase h }

/-- Replay loop of `handleOpen` (lines 841-848): one `subscribe_task` send
per pending task still present in the registry. -/
def replayPending (env : Env) : List String → State → State × List Effect
  | [], st => (st, [])
  | t :: rest, st =>
      if mapHas st.taskSubscriptions t then
        let r1 := send env st (Payload.subscribeTask t) true 3
        let r2 := replayPending env rest r1.1
        (r2.1, r1.2 ++ r2.2)
      else replayPending env rest st

/-- `handleOpen()` (lines 819-858): resets the attempt counter, marks the
backend available, clears the connection timeout, replays the pending
subscriptions (cleared first, against a copy), starts the queue flush
interval and the ping interval. -/
def handleOpen (env : Env) (st : State) : State × List Effect :=
  let st1 := { st with isConnecting := false
                       reconnectAttempts := 0
                       backendAvailable := true
                       connectionTimeout := false }
  let pendingTasks := st1.pendingSubscriptions
  let st2 := { st1 with pendingSubscriptions := [] }
  let r := replayPending env pendingTasks st2
  let st4 := if r.1.messageProcessingIntervalId then r.1
             else { r.1 with messageProcessingIntervalId := true }
  ({ st4 with pingIntervalId := true }, r.2)

/-- The socket `open` event: fires on a connecting transport, which becomes
`OPEN` before the registered `handleOpen` runs. -/
def socketOpens (env : Env) (st : State) : State × List Effect :=
  match st.ws with
  | some ReadyState.connecting => handleOpen env { st with ws := some ReadyState.opened }
  | _ => (st, [])

/-- Callback dispatch loop of `handleMessage` (lines 877-883): `forEach`
with a per-callback catch, so a throwing callback adds an error log and the
loop continues. -/
def runCallbacks (env : Env) (d : Nat) : List Nat → List Effect
  | [] => []
  | cb :: rest =>
      let tail := runCallbacks env d rest
      if env.cbThrows cb d then
        Effect.invokeCallback cb d :: Effect.logNote :: tail
      else Effect.invokeCallback cb d :: tail

/-- Global handler dispatch loop of `handleMessage` (lines 887-893), with
the same per-handler catch. -/
def runHandlers (env : Env) : List Nat → List Effect
  | [] => []
  | h :: rest =>
      let tail := runHandlers env rest
      if env.handlerThrows h then
        Effect.invokeHandler h :: Effect.logNote :: tail
      else Effect.invokeHandler h :: tail

/-- `handleMessage(event)` (lines 860-897).  `none` stands for a frame whose
`JSON.parse` throws: the error is caught and logged.  A `heartbeat`/`pong`
frame updates `lastPongTime`; a `task_update` frame with a truthy `task_id`
is dispatched to that task's callbacks; every parsed frame then goes to all
global handlers. -/
def handleMessage (env : Env) (st : State) (raw : Option InMessage) :
    State × List Effect :=
  match raw with
  | none => (st, [Effect.logNote])
  | some msg =>
      let st1 :=
        if msg.type = "heartbeat" || msg.type = "pong" then
          { st with lastPongTime := env.now }
        else st
      let connEffs : List Effect :=
        if msg.type = "connection_established" then [Effect.logNote] else []
      let taskEffs :=
        if msg.type = "task_update" && truthyId msg.task_id then
          runCallbacks env msg.data
            ((mapGet st1.taskSubscriptions (msg.task_id.getD "")).getD [])
        else []
      (st1, connEffs ++ taskEffs ++ runHandlers env st1.globalMessageHandlers)

/-- `handleClose(event)` (lines 899-918): drops the transport, stops the
ping interval; on a non-clean closure under the attempt budget schedules a
reconnect, and once the budget is exhausted marks the backend unavailable. -/
def handleClose (env : Env) (st : State) (wasClean : Bool) :
    State × List Effect :=
  let st1 := { st with ws := none, isConnecting := false, pingIntervalId := false }
  if !wasClean && decide (st1.reconnectAttempts < 10) then
    attemptReconnect env st1
  else if st1.reconnectAttempts ≥ 10 then
    ({ st1 with backendAvailable := false }, [Effect.logNote])
  else (st1, [])

/-- `handleError(event)` (lines 920-931): closes and drops the transport and
schedules a reconnect. -/
def handleError (env : Env) (st : State) : State × List Effect :=
  match st.ws with
  | some _ =>
      let r := attemptReconnect env { st with ws := none, isConnecting := false }
      (r.1, Effect.closeTransport :: r.2)
  | none =>
      let r := attemptReconnect env { st with isConnecting := false }
      (r.1, r.2)

/-- The 10-second connection timeout callback (lines 605-612): if a
transport exists and is not yet open, closes it (ready state `CLOSING`; the
`close` event follows separately) and schedules a reconnect. -/
def connectionTimeoutFires (env : Env) (st : State) : State × List Effect :=
  if !st.connectionTimeout then (st, [])
  else
    let st1 := { st with connectionTimeout := false }
    match st1.ws with
    | some rs =>
        if rs ≠ ReadyState.opened then
          let r := attemptReconnect env
            { st1 with ws := some ReadyState.closing, isConnecting := false }
          (r.1, Effect.closeTransport :: r.2)
        else (st1, [])
    | none => (st1, [])

/-- The reconnect timer callback (lines 946-949): clears the handle and
calls `connect()`. -/
def reconnectTimerFires (env : Env) (st : State) : State × List Effect :=
  match st.reconnectTimeoutId with
  | none => (st, [])
  | some _ => connect env { st with reconnectTimeoutId := none }

/-- `sendPing()` (lines 952-959): while connected, a non-retryable `ping`. -/
def sendPing (env : Env) (st : State) : State × List Effect :=
  if isConnected st then send env st (Payload.ping env.now) false 3
  else (st, [])

/-- One firing of the ping interval. -/
def pingTick (env : Env) (st : State) : State × List Effect :=
  if st.pingIntervalId then sendPing env st else (st, [])

/-- One firing of the queue-flush interval. -/
def flushTick (env : Env) (st : State) : State × List Effect :=
  if st.messageProcessingIntervalId then processMessageQueue env st
  else (st, [])

/-- Iterated flush-interval firings, accumulating the effect trace. -/
def ticks (env : Env) : Nat → State → State × List Effect
  | 0, st => (st, [])
  | n + 1, st =>
      let r1 := flushTick env st
      let r2 := ticks env n r1.1
      (r2.1, r1.2 ++ r2.2)

end TC

/-- Number of times a given frame is handed to the transport in a trace. -/
def countSends (p : Payload) (effs : List Effect) : Nat :=
  (effs.filter (fun e => e = Effect.wsSend p)).length

namespace WS

/-- Fields of `WebSocketServiceImpl` in `websocket.ts` (lines 29-43): no
outbound queue and no pending-subscription list; `maxReconnectAttempts` is
the constant 5. -/
structure State where
  ws : Option ReadyState
  taskSubscriptions : List (String × List Nat)
  globalMessageHandlers : List Nat
  reconnectAttempts : Nat
  reconnectTimeoutId : Option Nat
  pingIntervalId : Bool
  lastPongTime : Nat
  isBrowser : Bool
  isConnecting : Bool
  connectionTimeout : Bool
  backendAvailable : Bool
deriving DecidableEq, Repr

/-- Field values at construction time, in a browser environment. -/
def initialState : State :=
  { ws := none
    taskSubscriptions := []
    globalMessageHandlers := []
    reconnectAttempts := 0
    reconnectTimeoutId := none
    pingIntervalId := false
    lastPongTime := 0
    isBrowser := true
    isConnecting := false
    connectionTimeout := false
    backendAvailable := true }

/-- `isConnected()` (websocket.ts line 195). -/
def isConnected (st : State) : Bool :=
  st.ws = some ReadyState.opened

/-- Backoff delay of `attemptReconnect` (websocket.ts line 307), computed
after the increment: `Math.min(1000 * Math.pow(2, n), 30000)` for attempt
`n`, with no jitter term. -/
def reconnectDelayWs (n : Nat) : Nat :=
  min (1000 * 2 ^ n) 30000

/-- `send(data)` (websocket.ts lines 199-209): while connected hands the
frame to the transport (there is no try/catch in this revision; the
transmission is modelled as succeeding); otherwise, when the backend has
been marked unavailable, logs a fallback note for `subscribe_task` frames
and drops everything else. -/
def send (st : State) (data : Payload) : State × List Effect :=
  if isConnected st then (st, [Effect.wsSend data])
  else if st.isBrowser && !st.backendAvailable then
    match data with
    | Payload.subscribeTask t => if t ≠ "" then (st, [Effect.logNote]) else (st, [])
    | _ => (st, [])
  else (st, [])

/-- Registration step of the `websocket.ts` revision (lines 143-147):
create the entry if missing, then push the callback unconditionally — no
duplicate guard. -/
def registerCallbackW (ts : List (String × List Nat)) (taskId : String)
    (cb : Nat) : List (String × List Nat) :=
  let ts1 := if !mapHas ts taskId then mapSet ts taskId [] else ts
  mapSet ts1 taskId (((mapGet ts1 taskId).getD []) ++ [cb])

/-- `subscribeToTask(taskId, callback)` (websocket.ts lines 142-161): always
pushes the callback — there is no duplicate guard and no empty-id guard —
then, if connected, sends `subscribe_task`. -/
def subscribeToTask (st : State) (taskId : String) (cb : Nat) :
    State × List Effect :=
  let st2 :=
    { st with taskSubscriptions := registerCallbackW st.taskSubscriptions taskId cb }
  if isConnected st2 then send st2 (Payload.subscribeTask taskId)
  else (st2, [])

/-- `unsubscribeFromTask(taskId, callback)` (websocket.ts lines 163-183). -/
def unsubscribeFromTask (st : State) (taskId : String) (cb : Nat) :
    State × List Effect :=
  let callbacks := (mapGet st.taskSubscriptions taskId).getD []
  if callbacks.contains cb then
    let callbacks' := callbacks.erase cb
    if callbacks'.length = 0 then
      let st1 := { st with taskSubscriptions := mapDelete st.taskSubscriptions taskId }
      if isConnected st1 then send st1 (Payload.unsubscribeTask taskId)
      else (st1, [])
    else
      ({ st with taskSubscriptions := mapSet st.taskSubscriptions taskId callbacks' }, [])
  else (st, [])

/-- Replay loop of `handleOpen` (websocket.ts lines 223-229): one
`subscribe_task` send per key of the registry, in insertion order. -/
def replayAll (st : State) : List String → State × List Effect
  | [] => (st, [])
  | t :: rest =>
      let r1 := send st (Payload.subscribeTask t)
      let r2 := replayAll r1.1 rest
      (r2.1, r1.2 ++ r2.2)

/-- `handleOpen()` (websocket.ts lines 211-235): resets the attempt counter,
marks the backend available, clears the connection timeout, sends one
`subscribe_task` per subscribed task, and starts the ping interval. -/
def handleOpen (st : State) : State × List Effect :=
  let st1 := { st with isConnecting := false
                       reconnectAttempts := 0
                       backendAvailable := true
                       connectionTimeout := false }
  let r := replayAll st1 (st1.taskSubscriptions.map Prod.fst)
  ({ r.1 with pingIntervalId := true }, r.2)

/-- `handleMessage(event)` (websocket.ts lines 237-269): same router as the
`TaskContext.tsx` revision — per-callback and per-handler catch — without
the `connection_established` log. -/
def handleMessage (env : Env) (st : State) (raw : Option InMessage) :
    State × List Effect :=
  match raw with
  | none => (st, [Effect.logNote])
  | some msg =>
      let st1 :=
        if msg.type = "heartbeat" || msg.type = "pong" then
          { st with lastPongTime := env.now }
        else st
      let taskEffs :=
        if msg.type = "task_update" && truthyId msg.task_id then
          TC.runCallbacks env msg.data
            ((mapGet st1.taskSubscriptions (msg.task_id.getD "")).getD [])
        else []
      (st1, taskEffs ++ TC.runHandlers env st1.globalMessageHandlers)

/-- `attemptReconnect()` (websocket.ts lines 299-317): once the budget (5)
is reached marks the backend unavailable; otherwise increments the counter
and arms (replacing any armed timer) the reconnect timer with
`reconnectDelayWs`. -/
def attemptReconnect (st : State) : State × List Effect :=
  if st.reconnectAttempts ≥ 5 then
    ({ st with backendAvailable := false }, [Effect.logNote])
  else
    let n := st.reconnectAttempts + 1
    ({ st with reconnectAttempts := n
               reconnectTimeoutId := some (reconnectDelayWs n) }, [])

end WS

/-- Modelled from the spec (sections 4.1 and 8): the deterministic part of
the reconnect delay the specification claims for attempt `n`, namely
`min(base * 2^(n-1), cap)` with `base = 1000` ms and `cap = 30000` ms; the
claimed full delay adds a jitter below 1000 ms.  Stated separately so that
it can be compared with the delays computed by the two source revisions. -/
def specBackoffDet (n : Nat) : Nat :=
  min (1000 * 2 ^ (n - 1)) 30000

/-- Concrete environment in which every host operation succeeds, no callback
throws, the jitter is 0 and the clock reads 0. -/
def okEnv : Env :=
  { wsSendOk := fun _ => true
    newSocketOk := true
    cbThrows := fun _ _ => false
    handlerThrows := fun _ => false
    jitter := 0
    now := 0 }


/-- Environment in which every transmission fails (`ws.send` always
throws), used to exercise the retry-exhaustion path. -/
def failEnv : Env :=
  { wsSendOk := fun _ => false
    newSocketOk := true
    cbThrows := fun _ _ => false
    handlerThrows := fun _ => false
    jitter := 0
    now := 0 }

/-- Connected state holding one queued message with `maxRetries = 2`, the
flush interval armed. -/
def retryState : TC.State :=
  { TC.initialState with
      ws := some ReadyState.opened
      messageProcessingIntervalId := true
      messageQueue := [⟨Payload.user 7, true, 2, 0⟩] }

/-- Connected state with three messages queued while disconnected (in this
order) and the flush interval armed. -/
def fifoState : TC.State :=
  { TC.initialState with
      ws := some ReadyState.opened
      messageProcessingIntervalId := true
      messageQueue :=
        [⟨Payload.user 1, true, 3, 0⟩, ⟨Payload.user 2, true, 3, 0⟩,
         ⟨Payload.user 3, true, 3, 0⟩] }

/-- Callback invocations recorded in an effect trace, in order. -/
def invokedCallbacks (effs : List Effect) : List (Nat × Nat) :=
  effs.filterMap (fun e =>
    match e with
    | Effect.invokeCallback cb d => some (cb, d)
    | _ => none)

/-- Global-handler invocations recorded in an effect trace, in order. -/
def invokedHandlers (effs : List Effect) : List Nat :=
  effs.filterMap (fun e =>
    match e with
    | Effect.invokeHandler h => some h
    | _ => none)

/-- Environment in which callback 0 throws on every frame and global
handler 9 throws, everything else succeeding. -/
def throwEnv : Env :=
  { okEnv with
      cbThrows := fun cb _ => cb == 0
      handlerThrows := fun h => h == 9 }

/-- State with two callbacks on task A, one on task B, and two global
handlers, in both revisions. -/
def isolState : TC.State :=
  { TC.initialState with
      taskSubscriptions := [("A", [0, 1]), ("B", [2])]
      globalMessageHandlers := [9, 5] }

/-- The same registry in the `websocket.ts` revision. -/
def isolStateW : WS.State :=
  { WS.initialState with
      taskSubscriptions := [("A", [0, 1]), ("B", [2])]
      globalMessageHandlers := [9, 5] }

/-- A `task_update` frame for task A. -/
def isolMsg : InMessage :=
  { type := "task_update", task_id := some "A", data := 42 }

/-- The `websocket.ts` service after `subscribeToTask("A", cb0)` is called
twice with the same callback from the initial state. -/
def dupStateW : WS.State :=
  (WS.subscribeToTask (WS.subscribeToTask WS.initialState "A" 0).1 "A" 0).1

/-- A `task_update` frame for task A with data 5. -/
def dupMsg : InMessage :=
  { type := "task_update", task_id := some "A", data := 5 }

/-- Trace for the replay scenario in the `TaskContext.tsx` revision:
connect, open, subscribe to A and B while connected, forced (non-clean)
close, reconnect timer fires (a new transport opens). -/
def replayTrace1 : TC.State := (TC.connect okEnv TC.initialState).1

/-- After the socket open event of the first connection. -/
def replayTrace2 : TC.State := (TC.socketOpens okEnv replayTrace1).1

/-- After subscribing callback 0 to task A while connected. -/
def replayTrace3 : TC.State := (TC.subscribeToTask okEnv replayTrace2 "A" 0).1

/-- After subscribing callback 1 to task B while connected. -/
def replayTrace4 : TC.State := (TC.subscribeToTask okEnv replayTrace3 "B" 1).1

/-- After the forced (non-clean) close. -/
def replayTrace5 : TC.State := (TC.handleClose okEnv replayTrace4 false).1

/-- After the reconnect timer fires and `connect()` opens a new transport. -/
def replayTrace6 : TC.State := (TC.reconnectTimerFires okEnv replayTrace5).1

/-- A `TaskContext.tsx` state about to run the open handler with one pending
subscription (A) and two registered tasks. -/
def replayStateT : TC.State :=
  { TC.initialState with
      ws := some ReadyState.opened
      taskSubscriptions := [("A", [0]), ("B", [1])]
      pendingSubscriptions := ["A"] }

/-- A `websocket.ts` state about to run the open handler with two
registered tasks. -/
def replayStateW : WS.State :=
  { WS.initialState with
      ws := some ReadyState.opened
      taskSubscriptions := [("A", [0]), ("B", [1])] }

/-- One failed reconnect round: the reconnect timer fires (`connect()`
opens a transport) and the socket closes non-cleanly. -/
def exhaustRound (st : TC.State) : TC.State :=
  (TC.handleClose okEnv (TC.reconnectTimerFires okEnv st).1 false).1

/-- First failed connection: `connect()` from the initial state, then a
non-clean close (attempt counter 1, reconnect timer armed). -/
def exhaustStart : TC.State :=
  (TC.handleClose okEnv (TC.connect okEnv TC.initialState).1 false).1

/-- After eight further failed rounds: attempt counter 9, timer armed. -/
def exhaustNine : TC.State := exhaustRound^[8] exhaustStart

/-- The tenth `connect()`: a transport is opened and the 10-second
connection timeout armed. -/
def exhaustTenOpen : TC.State := (TC.reconnectTimerFires okEnv exhaustNine).1

/-- The connection timeout fires before the socket opens: the transport is
force-closed and the attempt counter reaches 10. -/
def exhaustTimedOut : TC.State :=
  (TC.connectionTimeoutFires okEnv exhaustTenOpen).1

/-- The close event of the force-closed socket arrives with the budget
exhausted: the backend is marked unavailable. -/
def exhaustedState : TC.State :=
  (TC.handleClose okEnv exhaustTimedOut false).1

/-- A state in which the manager has marked the backend unavailable after
exhausting the attempt budget. -/
def unavailState : TC.State :=
  { TC.initialState with backendAvailable := false, reconnectAttempts := 10 }

/-- The public operations and event-loop callbacks through which a
`TaskContext.tsx` service instance evolves. -/
inductive Op
  | opConnect
  | opDisconnect
  | opSend (d : Payload) (retry : Bool) (mr : Nat)
  | opSubscribe (t : String) (cb : Nat)
  | opUnsubscribe (t : String) (cb : Nat)
  | opAddHandler (h : Nat)
  | opRemoveHandler (h : Nat)
  | opSocketOpen
  | opSocketClose (wasClean : Bool)
  | opSocketError
  | opMessage (m : Option InMessage)
  | opReconnectTimer
  | opConnTimeout
  | opFlushTick
  | opPingTick

/-- State reached by one operation (effects discarded). -/
def step (env : Env) (st : TC.State) : Op → TC.State
  | Op.opConnect => (TC.connect env st).1
  | Op.opDisconnect => (TC.disconnect st).1
  | Op.opSend d r mr => (TC.send env st d r mr).1
  | Op.opSubscribe t cb => (TC.subscribeToTask env st t cb).1
  | Op.opUnsubscribe t cb => (TC.unsubscribeFromTask env st t cb).1
  | Op.opAddHandler h => TC.addMessageHandler st h
  | Op.opRemoveHandler h => TC.removeMessageHandler st h
  | Op.opSocketOpen => (TC.socketOpens env st).1
  | Op.opSocketClose wc => (TC.handleClose env st wc).1
  | Op.opSocketError => (TC.handleError env st).1
  | Op.opMessage m => (TC.handleMessage env st m).1
  | Op.opReconnectTimer => (TC.reconnectTimerFires env st).1
  | Op.opConnTimeout => (TC.connectionTimeoutFires env st).1
  | Op.opFlushTick => (TC.flushTick env st).1
  | Op.opPingTick => (TC.pingTick env st).1

/-- States reachable from construction through the public operations and
event callbacks, under arbitrary environments. -/
inductive Reachable : TC.State → Prop
  | init : Reachable TC.initialState
  | step (env : Env) (op : Op) {st : TC.State} :
      Reachable st → Reachable (step env st op)

/-- The C10 invariant: the pending list holds no duplicates and every
pending `taskId` has a non-empty callback list in the registry. -/
def pendingInv (st : TC.State) : Prop :=
  st.pendingSubscriptions.Nodup ∧
  ∀ t ∈ st.pendingSubscriptions, (mapGet st.taskSubscriptions t).getD [] ≠ []

-- END OF DEFINITIONS (theorems only below this line)

namespace TC

theorem attemptReconnect_snd (env : Env) (st : State) :
    (attemptReconnect env st).2 = [] := by
  cases h : st.reconnectTimeoutId <;> simp [attemptReconnect, h]

theorem attemptReconnect_taskSubscriptions (env : Env) (st : State) :
    (attemptReconnect env st).1.taskSubscriptions = st.taskSubscriptions := by
  cases h : st.reconnectTimeoutId <;> simp [attemptReconnect, h]

theorem attemptReconnect_messageQueue (env : Env) (st : State) :
    (attemptReconnect env st).1.messageQueue = st.messageQueue := by
  cases h : st.reconnectTimeoutId <;> simp [attemptReconnect, h]

theorem attemptReconnect_pendingSubscriptions (env : Env) (st : State) :
    (attemptReconnect env st).1.pendingSubscriptions = st.pendingSubscriptions := by
  cases h : st.reconnectTimeoutId <;> simp [attemptReconnect, h]

theorem connect_taskSubscriptions (env : Env) (st : State) :
    (connect env st).1.taskSubscriptions = st.taskSubscriptions := by
  unfold connect
  split
  · rfl
  · split
    · rfl
    · split
      · rfl
      · exact attemptReconnect_taskSubscriptions env _

theorem connect_messageQueue (env : Env) (st : State) :
    (connect env st).1.messageQueue = st.messageQueue := by
  unfold connect
  split
  · rfl
  · split
    · rfl
    · split
      · rfl
      · exact attemptReconnect_messageQueue env _

theorem connect_pendingSubscriptions (env : Env) (st : State) :
    (connect env st).1.pendingSubscriptions = st.pendingSubscriptions := by
  unfold connect
  split
  · rfl
  · split
    · rfl
    · split
      · rfl
      · exact attemptReconnect_pendingSubscriptions env _

theorem connect_snd_cases (env : Env) (st : State) :
    (connect env st).2 = [] ∨ (connect env st).2 = [Effect.openTransport] := by
  unfold connect
  split
  · exact Or.inl rfl
  · split
    · exact Or.inl rfl
    · split
      · exact Or.inr rfl
      · exact Or.inl (attemptReconnect_snd env _)

end TC

/-- C9: after `disconnect()` returns (in a browser environment), the
heartbeat ping interval, the reconnect timeout, the connection timeout and
the queue-flush interval are all cleared, the transport handle is null and
the attempt counter is zero, while the task subscription registry — and the
pending-subscription list driving replay — are left unchanged. -/
theorem disconnect_clears_timers_keeps_subscriptions (st : TC.State)
    (h : st.isBrowser = true) :
    (TC.disconnect st).1.pingIntervalId = false ∧
    (TC.disconnect st).1.reconnectTimeoutId = none ∧
    (TC.disconnect st).1.connectionTimeout = false ∧
    (TC.disconnect st).1.messageProcessingIntervalId = false ∧
    (TC.disconnect st).1.ws = none ∧
    (TC.disconnect st).1.reconnectAttempts = 0 ∧
    (TC.disconnect st).1.taskSubscriptions = st.taskSubscriptions ∧
    (TC.disconnect st).1.pendingSubscriptions = st.pendingSubscriptions := by
  unfold TC.disconnect
  cases hw : st.ws <;> simp [h, hw]

/-- Witness for C9 at a concrete state. -/
theorem disconnect_clears_timers_keeps_subscriptions_witness :
    (TC.disconnect TC.initialState).1.pingIntervalId = false ∧
    (TC.disconnect TC.initialState).1.reconnectTimeoutId = none ∧
    (TC.disconnect TC.initialState).1.connectionTimeout = false ∧
    (TC.disconnect TC.initialState).1.messageProcessingIntervalId = false ∧
    (TC.disconnect TC.initialState).1.ws = none ∧
    (TC.disconnect TC.initialState).1.reconnectAttempts = 0 ∧
    (TC.disconnect TC.initialState).1.taskSubscriptions
      = TC.initialState.taskSubscriptions ∧
    (TC.disconnect TC.initialState).1.pendingSubscriptions
      = TC.initialState.pendingSubscriptions :=
  disconnect_clears_timers_keeps_subscriptions TC.initialState (by decide)

set_option maxRecDepth 4000 in
/-- C4 counterexample: in the `websocket.ts` revision, the delay computed
for attempt 1 is 2000 ms, while the claimed formula
`min(1000 * 2^(1-1), 30000) + jitter` yields `1000 + jitter`, which differs
from 2000 for every jitter value below 1000 (the range of
`Math.random() * 1000`); the firing of `attemptReconnect` from the initial
state indeed arms the timer with 2000 ms. -/
theorem backoff_formula_counterexample :
    WS.reconnectDelayWs 1 = 2000 ∧
    specBackoffDet 1 = 1000 ∧
    ((List.range 1000).all fun j => specBackoffDet 1 + j != 2000) = true ∧
    (WS.attemptReconnect WS.initialState).1.reconnectTimeoutId = some 2000 := by
  decide

/-- C4 amended: in the `TaskContext.tsx` revision, the reconnect delay for
attempt `n ≥ 1` equals `min(1000 * 2^(n-1), 30000) + jitter` with the jitter
below 1000 ms, exactly the claimed formula, and `attemptReconnect` arms the
timer with that delay; in the `websocket.ts` revision the delay is
`min(1000 * 2^n, 30000)` with no jitter, so attempt 1 waits 2000 ms, twice
the base.  In both revisions the deterministic part of successive delays is
non-decreasing (up to the cap), and in the `TaskContext.tsx` revision
attempt 1's delay is the 1000 ms base plus the jitter, hence below 2000 ms. -/
theorem backoff_formula_amended (env : Env) (st : TC.State) (n : Nat)
    (h1 : 1 ≤ n) (hj : env.jitter < 1000)
    (ht : st.reconnectTimeoutId = none) (hn : st.reconnectAttempts + 1 = n) :
    (TC.attemptReconnect env st).1.reconnectTimeoutId
        = some (specBackoffDet n + env.jitter) ∧
    TC.reconnectDelay n env.jitter = specBackoffDet n + env.jitter ∧
    specBackoffDet n ≤ specBackoffDet (n + 1) ∧
    specBackoffDet 1 = 1000 ∧
    TC.reconnectDelay 1 env.jitter < 2000 ∧
    WS.reconnectDelayWs n = min (1000 * 2 ^ n) 30000 ∧
    WS.reconnectDelayWs n ≤ WS.reconnectDelayWs (n + 1) := by
  refine ⟨?_, rfl, ?_, rfl, ?_, rfl, ?_⟩
  · simp [TC.attemptReconnect, ht, hn, TC.reconnectDelay, specBackoffDet]
  · have hpow : 1000 * 2 ^ (n - 1) ≤ 1000 * 2 ^ (n + 1 - 1) := by
      have : (2 : Nat) ^ (n - 1) ≤ 2 ^ (n + 1 - 1) := by
        apply Nat.pow_le_pow_right (by norm_num)
        omega
      exact Nat.mul_le_mul_left 1000 this
    exact min_le_min hpow le_rfl
  · have : TC.reconnectDelay 1 env.jitter = 1000 + env.jitter := rfl
    omega
  · have hpow : 1000 * 2 ^ n ≤ 1000 * 2 ^ (n + 1) := by
      have : (2 : Nat) ^ n ≤ 2 ^ (n + 1) := by
        apply Nat.pow_le_pow_right (by norm_num)
        omega
      exact Nat.mul_le_mul_left 1000 this
    exact min_le_min hpow le_rfl

/-- Witness for the amended C4 at attempt 1 with jitter 250. -/
theorem backoff_formula_amended_witness :
    (TC.attemptReconnect
        { okEnv with jitter := 250 } TC.initialState).1.reconnectTimeoutId
      = some (specBackoffDet 1 + 250) ∧
    TC.reconnectDelay 1 250 = specBackoffDet 1 + 250 ∧
    specBackoffDet 1 ≤ specBackoffDet 2 ∧
    specBackoffDet 1 = 1000 ∧
    TC.reconnectDelay 1 250 < 2000 ∧
    WS.reconnectDelayWs 1 = min (1000 * 2 ^ 1) 30000 ∧
    WS.reconnectDelayWs 1 ≤ WS.reconnectDelayWs 2 :=
  backoff_formula_amended { okEnv with jitter := 250 } TC.initialState 1
    (by decide) (by decide) (by decide) (by decide)

namespace TC

theorem queueMessage_snd (st : State) (m : Payload) (r : Bool) (mr : Nat) :
    (queueMessage st m r mr).2 = [] := by
  unfold queueMessage
  dsimp only
  split <;> rfl

theorem queueMessage_messageQueue (st : State) (m : Payload) (r : Bool) (mr : Nat) :
    (queueMessage st m r mr).1.messageQueue = st.messageQueue ++ [⟨m, r, mr, 0⟩] := by
  unfold queueMessage
  dsimp only
  split <;> rfl

theorem queueMessage_taskSubscriptions (st : State) (m : Payload) (r : Bool) (mr : Nat) :
    (queueMessage st m r mr).1.taskSubscriptions = st.taskSubscriptions := by
  unfold queueMessage
  dsimp only
  split <;> rfl

theorem queueMessage_pendingSubscriptions (st : State) (m : Payload) (r : Bool) (mr : Nat) :
    (queueMessage st m r mr).1.pendingSubscriptions = st.pendingSubscriptions := by
  unfold queueMessage
  dsimp only
  split <;> rfl

theorem sendUnavailableFallback_fst (st : State) (d : Payload) :
    (sendUnavailableFallback st d).1 = st := by
  unfold sendUnavailableFallback
  split
  · split <;> rfl
  · rfl

theorem sendUnavailableFallback_snd (st : State) (d : Payload) :
    (sendUnavailableFallback st d).2 = []
      ∨ (sendUnavailableFallback st d).2 = [Effect.logNote] := by
  cases d <;> simp [sendUnavailableFallback]
  split <;> simp

end TC

/-- C8: `send(payload, retryable, maxRetries)` never throws to the caller
(its failure branches are the catch branches of the source, and it is a
total transition): the subscription registry is never touched; the message
is enqueued with `retries = 0` exactly when transmission fails while
connected and `retryable` is set, or when not connected and `retryable` is
set; when not connected and not retryable the state is returned unchanged
and at most an informational log is emitted; and a frame is handed to the
transport if and only if the service is connected. -/
theorem send_never_throws (env : Env) (st : TC.State) (data : Payload)
    (retry : Bool) (mr : Nat) :
    (TC.send env st data retry mr).1.taskSubscriptions = st.taskSubscriptions ∧
    (TC.send env st data retry mr).1.messageQueue
      = st.messageQueue ++
        (if (TC.isConnected st && !env.wsSendOk data && retry)
            || (!TC.isConnected st && retry)
         then [⟨data, true, mr, 0⟩] else []) ∧
    (TC.isConnected st = false → retry = false →
        (TC.send env st data retry mr).1 = st ∧
        ((TC.send env st data retry mr).2 = []
          ∨ (TC.send env st data retry mr).2 = [Effect.logNote])) ∧
    (Effect.wsSend data ∈ (TC.send env st data retry mr).2
      ↔ TC.isConnected st = true) := by
  refine ⟨?_, ?_, ?_, ?_⟩
  · unfold TC.send
    by_cases hc : TC.isConnected st <;> simp [hc]
    · by_cases hk : env.wsSendOk data <;> simp [hk]
      cases retry <;> simp [TC.queueMessage_taskSubscriptions]
    · cases retry <;> simp
      · split
        · rw [TC.sendUnavailableFallback_fst]
        · rfl
      · split
        · rw [TC.connect_taskSubscriptions]
          exact TC.queueMessage_taskSubscriptions st data true mr
        · exact TC.queueMessage_taskSubscriptions st data true mr
  · unfold TC.send
    by_cases hc : TC.isConnected st <;> simp [hc]
    · by_cases hk : env.wsSendOk data <;> simp [hk]
      cases retry <;> simp [TC.queueMessage_messageQueue]
    · cases retry <;> simp
      · split
        · rw [TC.sendUnavailableFallback_fst]
        · rfl
      · split
        · rw [TC.connect_messageQueue]
          exact TC.queueMessage_messageQueue st data true mr
        · exact TC.queueMessage_messageQueue st data true mr
  · intro hc hr
    subst hr
    unfold TC.send
    simp [hc]
    split
    · exact ⟨TC.sendUnavailableFallback_fst st data,
        TC.sendUnavailableFallback_snd st data⟩
    · exact ⟨rfl, Or.inl rfl⟩
  · unfold TC.send
    by_cases hc : TC.isConnected st <;> simp [hc]
    · by_cases hk : env.wsSendOk data <;> simp [hk]
      cases retry <;> simp
    · cases retry <;> simp
      · split
        · rcases TC.sendUnavailableFallback_snd st data with h2 | h2 <;>
            simp [h2]
        · simp
      · split
        · rcases TC.connect_snd_cases env (TC.queueMessage st data true mr).1
            with h2 | h2 <;> simp [TC.queueMessage_snd, h2]
        · simp [TC.queueMessage_snd]

/-- Witness for C8: a non-retryable send while disconnected leaves the state
unchanged and emits at most a log. -/
theorem send_never_throws_witness :
    (TC.send okEnv TC.initialState (Payload.user 1) false 3).1 = TC.initialState ∧
    ((TC.send okEnv TC.initialState (Payload.user 1) false 3).2 = []
      ∨ (TC.send okEnv TC.initialState (Payload.user 1) false 3).2
          = [Effect.logNote]) :=
  (send_never_throws okEnv TC.initialState (Payload.user 1) false 3).2.2.1
    (by decide) rfl

namespace TC

theorem ticks_zero (env : Env) (st : State) : ticks env 0 st = (st, []) := rfl

theorem ticks_succ (env : Env) (n : Nat) (st : State) :
    ticks env (n + 1) st
      = ((ticks env n (flushTick env st).1).1,
         (flushTick env st).2 ++ (ticks env n (flushTick env st).1).2) := rfl

theorem ticks_idle (env : Env) (n : Nat) (st : State)
    (h : st.messageProcessingIntervalId = false) : ticks env n st = (st, []) := by
  induction n with
  | zero => rfl
  | succ k ih =>
      have hf : flushTick env st = (st, []) := by simp [flushTick, h]
      rw [ticks_succ, hf]
      simp [ih]

theorem ticks_add (env : Env) (a b : Nat) (st : State) :
    ticks env (a + b) st
      = ((ticks env b (ticks env a st).1).1,
         (ticks env a st).2 ++ (ticks env b (ticks env a st).1).2) := by
  induction a generalizing st with
  | zero => simp [ticks_zero]
  | succ k ih =>
      have : k + 1 + b = (k + b) + 1 := by omega
      rw [this, ticks_succ, ticks_succ, ih]
      simp

theorem tick_fail_step (env : Env) (st : State) (m : Payload) (r : Nat)
    (hfail : env.wsSendOk m = false) (hws : st.ws = some ReadyState.opened)
    (hint : st.messageProcessingIntervalId = true)
    (hq : st.messageQueue = [⟨m, true, 2, r⟩]) (hlt : r < 2) :
    flushTick env st
      = ({ st with messageQueue := [⟨m, true, 2, r + 1⟩] },
         [Effect.wsSend m, Effect.logNote]) := by
  simp [flushTick, hint, processMessageQueue, isConnected, hws, hq,
    processLoop, hfail, jsOrNat, hlt]

theorem tick_fail_drop (env : Env) (st : State) (m : Payload)
    (hfail : env.wsSendOk m = false) (hws : st.ws = some ReadyState.opened)
    (hint : st.messageProcessingIntervalId = true)
    (hq : st.messageQueue = [⟨m, true, 2, 2⟩]) :
    flushTick env st
      = ({ st with messageQueue := [], messageProcessingIntervalId := false },
         [Effect.wsSend m, Effect.logNote]) := by
  simp [flushTick, hint, processMessageQueue, isConnected, hws, hq,
    processLoop, hfail, jsOrNat]

end TC

/-- C3: a queued message with `maxRetries = 2` whose transmission fails on
every flush attempt is handed to the transport exactly once per flush cycle
for three cycles (initial attempt plus 2 retries), never more than 3 times
over any number of cycles, and is then removed from the queue with no
further effect (silent drop). -/
theorem retry_exhaustion (env : Env) (st : TC.State) (m : Payload)
    (hfail : env.wsSendOk m = false)
    (hws : st.ws = some ReadyState.opened)
    (hint : st.messageProcessingIntervalId = true)
    (hq : st.messageQueue = [⟨m, true, 2, 0⟩]) :
    (TC.ticks env 3 st).1.messageQueue = [] ∧
    countSends m (TC.ticks env 3 st).2 = 3 ∧
    (∀ n, countSends m (TC.ticks env n st).2 ≤ 3) ∧
    (∀ n, (TC.ticks env (3 + n) st).2 = (TC.ticks env 3 st).2) := by
  have e1 : TC.flushTick env st
      = ({ st with messageQueue := [⟨m, true, 2, 1⟩] },
         [Effect.wsSend m, Effect.logNote]) := by
    simpa using TC.tick_fail_step env st m 0 hfail hws hint hq (by norm_num)
  have e2 : TC.flushTick env { st with messageQueue := [⟨m, true, 2, 1⟩] }
      = ({ st with messageQueue := [⟨m, true, 2, 2⟩] },
         [Effect.wsSend m, Effect.logNote]) := by
    simpa using TC.tick_fail_step env
      { st with messageQueue := [⟨m, true, 2, 1⟩] } m 1 hfail hws hint rfl
      (by norm_num)
  have e3 : TC.flushTick env { st with messageQueue := [⟨m, true, 2, 2⟩] }
      = ({ st with messageQueue := [], messageProcessingIntervalId := false },
         [Effect.wsSend m, Effect.logNote]) := by
    simpa using TC.tick_fail_drop env
      { st with messageQueue := [⟨m, true, 2, 2⟩] } m hfail hws hint rfl
  have v1 : TC.ticks env 1 st
      = ({ st with messageQueue := [⟨m, true, 2, 1⟩] },
         [Effect.wsSend m, Effect.logNote]) := by
    have u : TC.ticks env 1 st
        = ((TC.ticks env 0 (TC.flushTick env st).1).1,
           (TC.flushTick env st).2
             ++ (TC.ticks env 0 (TC.flushTick env st).1).2) := rfl
    rw [u, e1]
    simp [TC.ticks_zero]
  have v2 : TC.ticks env 2 st
      = ({ st with messageQueue := [⟨m, true, 2, 2⟩] },
         [Effect.wsSend m, Effect.logNote, Effect.wsSend m, Effect.logNote]) := by
    have u : TC.ticks env 2 st
        = ((TC.ticks env 1 (TC.flushTick env st).1).1,
           (TC.flushTick env st).2
             ++ (TC.ticks env 1 (TC.flushTick env st).1).2) := rfl
    have u1 : TC.ticks env 1 { st with messageQueue := [⟨m, true, 2, 1⟩] }
        = ((TC.ticks env 0
              (TC.flushTick env { st with messageQueue := [⟨m, true, 2, 1⟩] }).1).1,
           (TC.flushTick env { st with messageQueue := [⟨m, true, 2, 1⟩] }).2
             ++ (TC.ticks env 0
                  (TC.flushTick env
                    { st with messageQueue := [⟨m, true, 2, 1⟩] }).1).2) := rfl
    rw [u, e1, u1, e2]
    simp [TC.ticks_zero]
  have v3 : TC.ticks env 3 st
      = ({ st with messageQueue := [], messageProcessingIntervalId := false },
         [Effect.wsSend m, Effect.logNote, Effect.wsSend m, Effect.logNote,
          Effect.wsSend m, Effect.logNote]) := by
    have u : TC.ticks env 3 st
        = ((TC.ticks env 2 (TC.flushTick env st).1).1,
           (TC.flushTick env st).2
             ++ (TC.ticks env 2 (TC.flushTick env st).1).2) := rfl
    have u2 : TC.ticks env 2 { st with messageQueue := [⟨m, true, 2, 1⟩] }
        = ((TC.ticks env 1
              (TC.flushTick env { st with messageQueue := [⟨m, true, 2, 1⟩] }).1).1,
           (TC.flushTick env { st with messageQueue := [⟨m, true, 2, 1⟩] }).2
             ++ (TC.ticks env 1
                  (TC.flushTick env
                    { st with messageQueue := [⟨m, true, 2, 1⟩] }).1).2) := rfl
    have u1 : TC.ticks env 1 { st with messageQueue := [⟨m, true, 2, 2⟩] }
        = ((TC.ticks env 0
              (TC.flushTick env { st with messageQueue := [⟨m, true, 2, 2⟩] }).1).1,
           (TC.flushTick env { st with messageQueue := [⟨m, true, 2, 2⟩] }).2
             ++ (TC.ticks env 0
                  (TC.flushTick env
                    { st with messageQueue := [⟨m, true, 2, 2⟩] }).1).2) := rfl
    rw [u, e1, u2, e2, u1, e3]
    simp [TC.ticks_zero]
  have hidle : ({ st with messageQueue := ([] : List QueueItem)
                          messageProcessingIntervalId := false }
        : TC.State).messageProcessingIntervalId = false := rfl
  refine ⟨by rw [v3], by rw [v3]; simp [countSends], ?_, ?_⟩
  · intro n
    by_cases h3 : n ≤ 3
    · interval_cases n
      · simp [TC.ticks_zero, countSends]
      · rw [v1]; simp [countSends]
      · rw [v2]; simp [countSends]
      · rw [v3]; simp [countSends]
    · obtain ⟨k, rfl⟩ : ∃ k, n = 3 + k := ⟨n - 3, by omega⟩
      rw [TC.ticks_add, v3]
      rw [TC.ticks_idle env k _ hidle]
      simp [countSends]
  · intro n
    rw [TC.ticks_add, v3, TC.ticks_idle env n _ hidle]
    simp

/-- Witness for C3: the concrete always-failing run on one queued message
with `maxRetries = 2`. -/
theorem retry_exhaustion_witness :
    (TC.ticks failEnv 3 retryState).1.messageQueue = [] ∧
    countSends (Payload.user 7) (TC.ticks failEnv 3 retryState).2 = 3 :=
  And.intro
    (retry_exhaustion failEnv retryState (Payload.user 7) rfl rfl rfl rfl).1
    (retry_exhaustion failEnv retryState (Payload.user 7) rfl rfl rfl rfl).2.1

namespace TC

theorem processLoop_all_ok (env : Env) (hok : ∀ p, env.wsSendOk p = true) :
    ∀ (fuel : Nat) (q : List QueueItem),
      processLoop env fuel q
        = (q.drop fuel, (q.take fuel).map (fun i => Effect.wsSend i.message)) := by
  intro fuel
  induction fuel with
  | zero => intro q; simp [processLoop]
  | succ k ih =>
      intro q
      cases q with
      | nil => simp [processLoop]
      | cons item rest => simp [processLoop, hok item.message, ih rest]

theorem processMessageQueue_all_ok (env : Env) (st : State)
    (hok : ∀ p, env.wsSendOk p = true)
    (hws : st.ws = some ReadyState.opened) :
    processMessageQueue env st
      = (if st.messageQueue.length ≤ 5 ∧ st.messageProcessingIntervalId = true
         then { st with messageQueue := st.messageQueue.drop 5
                        messageProcessingIntervalId := false }
         else { st with messageQueue := st.messageQueue.drop 5 },
         (st.messageQueue.take 5).map (fun i => Effect.wsSend i.message)) := by
  have htake : st.messageQueue.take (min 5 st.messageQueue.length)
      = st.messageQueue.take 5 := by
    rcases le_total st.messageQueue.length 5 with h | h
    · rw [Nat.min_eq_right h, List.take_length, List.take_of_length_le h]
    · rw [Nat.min_eq_left h]
  have hdrop : st.messageQueue.drop (min 5 st.messageQueue.length)
      = st.messageQueue.drop 5 := by
    rcases le_total st.messageQueue.length 5 with h | h
    · rw [Nat.min_eq_right h, List.drop_length, List.drop_of_length_le h]
    · rw [Nat.min_eq_left h]
  unfold processMessageQueue
  rw [processLoop_all_ok env hok]
  simp only [isConnected, hws, htake, hdrop]
  simp [List.length_eq_zero, Nat.sub_eq_zero_iff_le]
  split <;> rfl

end TC

/-- C6: while connected with only succeeding transmissions, each flush cycle
hands the next (up to) five queued messages to the transport in queue order,
so over any number of cycles the transmission order is exactly the FIFO
enqueue order; in particular three messages queued while disconnected are
transmitted as `m1, m2, m3` in the first cycle after the connection opens. -/
theorem fifo_flush (env : Env) (st : TC.State)
    (hok : ∀ p, env.wsSendOk p = true)
    (hws : st.ws = some ReadyState.opened)
    (hint : st.messageProcessingIntervalId = true) :
    (∀ n, (TC.ticks env n st).2
        = (st.messageQueue.take (5 * n)).map (fun i => Effect.wsSend i.message)) ∧
    (∀ a b c : QueueItem, st.messageQueue = [a, b, c] →
        (TC.ticks env 1 st).2
          = [Effect.wsSend a.message, Effect.wsSend b.message,
             Effect.wsSend c.message]) := by
  have aux : ∀ (n : Nat) (s : TC.State), s.ws = some ReadyState.opened →
      s.messageProcessingIntervalId = true →
      (TC.ticks env n s).2
        = (s.messageQueue.take (5 * n)).map (fun i => Effect.wsSend i.message) := by
    intro n
    induction n with
    | zero => intro s _ _; simp [TC.ticks_zero]
    | succ k ih =>
        intro s hws2 hint2
        rw [TC.ticks_succ]
        have hf : TC.flushTick env s = TC.processMessageQueue env s := by
          simp [TC.flushTick, hint2]
        rw [hf, TC.processMessageQueue_all_ok env s hok hws2]
        by_cases hd : s.messageQueue.drop 5 = []
        · have hlen : s.messageQueue.length ≤ 5 := List.drop_eq_nil_iff.mp hd
          rw [if_pos ⟨hlen, hint2⟩]
          rw [TC.ticks_idle env k _ (by rfl)]
          simp only [List.append_nil]
          rw [List.take_of_length_le hlen,
            List.take_of_length_le (le_trans hlen (by omega))]
        · rw [if_neg (fun hconj => hd (List.drop_eq_nil_iff.mpr hconj.1))]
          rw [ih { s with messageQueue := s.messageQueue.drop 5 } hws2 hint2]
          show (s.messageQueue.take 5).map _
              ++ ((s.messageQueue.drop 5).take (5 * k)).map _ = _
          rw [← List.map_append, ← List.take_add]
          have h55 : 5 + 5 * k = 5 * (k + 1) := by ring
          rw [h55]
  refine ⟨fun n => aux n st hws hint, ?_⟩
  intro a b c hq
  rw [aux 1 st hws hint, hq]
  simp

/-- Witness for C6: three queued messages are transmitted in enqueue order
in the first flush cycle. -/
theorem fifo_flush_witness :
    (TC.ticks okEnv 1 fifoState).2
      = [Effect.wsSend (Payload.user 1), Effect.wsSend (Payload.user 2),
         Effect.wsSend (Payload.user 3)] :=
  (fifo_flush okEnv fifoState (fun _ => rfl) rfl rfl).2
    ⟨Payload.user 1, true, 3, 0⟩ ⟨Payload.user 2, true, 3, 0⟩
    ⟨Payload.user 3, true, 3, 0⟩ rfl

namespace TC

theorem invokedCallbacks_runCallbacks (env : Env) (d : Nat) (cbs : List Nat) :
    invokedCallbacks (runCallbacks env d cbs) = cbs.map (fun cb => (cb, d)) := by
  induction cbs with
  | nil => rfl
  | cons cb rest ih =>
      by_cases h : env.cbThrows cb d = true <;>
        simp [runCallbacks, h, invokedCallbacks] <;>
        simpa [invokedCallbacks] using ih

theorem invokedHandlers_runCallbacks (env : Env) (d : Nat) (cbs : List Nat) :
    invokedHandlers (runCallbacks env d cbs) = [] := by
  induction cbs with
  | nil => rfl
  | cons cb rest ih =>
      by_cases h : env.cbThrows cb d = true <;>
        simp [runCallbacks, h, invokedHandlers] <;>
        simpa [invokedHandlers] using ih

theorem invokedHandlers_runHandlers (env : Env) (hs : List Nat) :
    invokedHandlers (runHandlers env hs) = hs := by
  induction hs with
  | nil => rfl
  | cons h0 rest ih =>
      by_cases h : env.handlerThrows h0 = true <;>
        simp [runHandlers, h, invokedHandlers] <;>
        simpa [invokedHandlers] using ih

theorem invokedCallbacks_runHandlers (env : Env) (hs : List Nat) :
    invokedCallbacks (runHandlers env hs) = [] := by
  induction hs with
  | nil => rfl
  | cons h0 rest ih =>
      by_cases h : env.handlerThrows h0 = true <;>
        simp [runHandlers, h, invokedCallbacks] <;>
        simpa [invokedCallbacks] using ih

theorem invokedCallbacks_append (a b : List Effect) :
    invokedCallbacks (a ++ b) = invokedCallbacks a ++ invokedCallbacks b := by
  simp [invokedCallbacks]

theorem invokedHandlers_append (a b : List Effect) :
    invokedHandlers (a ++ b) = invokedHandlers a ++ invokedHandlers b := by
  simp [invokedHandlers]

end TC

/-- C7: on a `task_update` frame with a present (truthy) `task_id`, every
registered callback for that task is invoked with the frame's data — in
registration order, whatever callbacks or handlers throw (each `forEach`
body catches per element) — and every global handler is invoked as well;
the router state is returned unchanged, so subsequent frames (for this or
any other task) are dispatched exactly as before.  The same holds in the
`websocket.ts` revision. -/
theorem fault_isolation (env : Env) (stT : TC.State) (stW : WS.State)
    (msg : InMessage) (t : String)
    (hty : msg.type = "task_update") (hid : msg.task_id = some t)
    (hne : t ≠ "") :
    invokedCallbacks (TC.handleMessage env stT (some msg)).2
        = ((mapGet stT.taskSubscriptions t).getD []).map (fun cb => (cb, msg.data)) ∧
    invokedHandlers (TC.handleMessage env stT (some msg)).2
        = stT.globalMessageHandlers ∧
    (TC.handleMessage env stT (some msg)).1 = stT ∧
    invokedCallbacks (WS.handleMessage env stW (some msg)).2
        = ((mapGet stW.taskSubscriptions t).getD []).map (fun cb => (cb, msg.data)) ∧
    invokedHandlers (WS.handleMessage env stW (some msg)).2
        = stW.globalMessageHandlers := by
  have htr : truthyId (some t) = true := by simp [truthyId, hne]
  refine ⟨?_, ?_, ?_, ?_, ?_⟩ <;>
    simp [TC.handleMessage, WS.handleMessage, hty, hid, htr,
      TC.invokedCallbacks_append, TC.invokedHandlers_append,
      TC.invokedCallbacks_runCallbacks, TC.invokedHandlers_runCallbacks,
      TC.invokedHandlers_runHandlers, TC.invokedCallbacks_runHandlers]

/-- Witness for C7: callback 0 on task A and handler 9 throw; both
callbacks on A and both handlers are nevertheless invoked, and the state is
unchanged. -/
theorem fault_isolation_witness :
    invokedCallbacks (TC.handleMessage throwEnv isolState (some isolMsg)).2
        = [(0, 42), (1, 42)] ∧
    invokedHandlers (TC.handleMessage throwEnv isolState (some isolMsg)).2
        = [9, 5] ∧
    (TC.handleMessage throwEnv isolState (some isolMsg)).1 = isolState ∧
    invokedCallbacks (WS.handleMessage throwEnv isolStateW (some isolMsg)).2
        = [(0, 42), (1, 42)] ∧
    invokedHandlers (WS.handleMessage throwEnv isolStateW (some isolMsg)).2
        = [9, 5] :=
  fault_isolation throwEnv isolState isolStateW isolMsg "A" rfl rfl (by decide)

theorem mapGet_mapSet_self (m : List (String × List Nat)) (k : String)
    (v : List Nat) : mapGet (mapSet m k v) k = some v := by
  induction m with
  | nil => simp [mapSet, mapGet]
  | cons p rest ih =>
      obtain ⟨k', v'⟩ := p
      by_cases h : k' = k <;> simp [mapSet, mapGet, h, ih]

theorem mapSet_mapSet (m : List (String × List Nat)) (k : String)
    (v w : List Nat) : mapSet (mapSet m k v) k w = mapSet m k w := by
  induction m with
  | nil => simp [mapSet]
  | cons p rest ih =>
      obtain ⟨k', v'⟩ := p
      by_cases h : k' = k <;> simp [mapSet, h, ih]

theorem mapSet_eq_self (m : List (String × List Nat)) (k : String)
    (v : List Nat) (h : mapGet m k = some v) : mapSet m k v = m := by
  induction m with
  | nil => simp [mapGet] at h
  | cons p rest ih =>
      obtain ⟨k', v'⟩ := p
      by_cases hk : k' = k
      · simp [mapGet, hk] at h
        simp [mapSet, hk, h]
      · simp [mapGet, hk] at h
        simp [mapSet, hk, ih h]

namespace TC

theorem send_ts (env : Env) (st : State) (data : Payload) (retry : Bool)
    (mr : Nat) :
    (send env st data retry mr).1.taskSubscriptions = st.taskSubscriptions := by
  unfold send
  by_cases hc : isConnected st <;> simp [hc]
  · by_cases hk : env.wsSendOk data <;> simp [hk]
    cases retry <;> simp [queueMessage_taskSubscriptions]
  · cases retry <;> simp
    · split
      · rw [sendUnavailableFallback_fst]
      · rfl
    · split
      · rw [connect_taskSubscriptions]
        exact queueMessage_taskSubscriptions st data true mr
      · exact queueMessage_taskSubscriptions st data true mr

theorem registerCallback_eq (ts : List (String × List Nat)) (t : String)
    (cb : Nat) :
    registerCallback ts t cb
      = mapSet ts t
          (if cb ∈ (mapGet ts t).getD []
           then (mapGet ts t).getD []
           else (mapGet ts t).getD [] ++ [cb]) := by
  unfold registerCallback
  by_cases hhas : mapHas ts t
  · obtain ⟨v, hv⟩ := Option.isSome_iff_exists.mp hhas
    simp only [hhas, Bool.not_true, Bool.false_eq_true, if_false, hv,
      Option.getD_some]
    by_cases hmem : cb ∈ v
    · simp [hmem, mapSet_eq_self ts t v hv]
    · simp [hmem]
  · have hnone : mapGet ts t = none := by
      cases h : mapGet ts t
      · rfl
      · exact absurd (by simp [mapHas, h]) hhas
    simp [hhas, hnone, mapGet_mapSet_self, mapSet_mapSet]

theorem subscribeToTask_ts (env : Env) (st : State) (t : String) (cb : Nat)
    (hne : t ≠ "") :
    (subscribeToTask env st t cb).1.taskSubscriptions
      = registerCallback st.taskSubscriptions t cb := by
  unfold subscribeToTask
  simp only [hne, if_neg, if_false]
  split
  · rw [send_ts]
  · split
    · split
      · rw [connect_taskSubscriptions]
      · rfl
    · rfl

end TC

namespace WS

theorem send_fst (st : State) (data : Payload) : (send st data).1 = st := by
  unfold send
  split
  · rfl
  · split
    · split
      · split <;> rfl
      · rfl
    · rfl

theorem registerCallbackW_eq (ts : List (String × List Nat)) (t : String)
    (cb : Nat) :
    registerCallbackW ts t cb = mapSet ts t ((mapGet ts t).getD [] ++ [cb]) := by
  unfold registerCallbackW
  by_cases hhas : mapHas ts t
  · obtain ⟨v, hv⟩ := Option.isSome_iff_exists.mp hhas
    simp [hhas, hv]
  · have hnone : mapGet ts t = none := by
      cases h : mapGet ts t
      · rfl
      · exact absurd (by simp [mapHas, h]) hhas
    simp [hhas, hnone, mapGet_mapSet_self, mapSet_mapSet]

theorem subscribeToTaskW_ts (st : State) (t : String) (cb : Nat) :
    (subscribeToTask st t cb).1.taskSubscriptions
      = registerCallbackW st.taskSubscriptions t cb := by
  unfold subscribeToTask
  dsimp only
  split
  · rw [send_fst]
  · rfl

end WS

theorem count_pair_map (d : Nat) (l : List Nat) (cb : Nat) :
    (l.map (fun c => (c, d))).count (cb, d) = l.count cb := by
  induction l with
  | nil => rfl
  | cons a rest ih => by_cases h : a = cb <;> simp [List.count_cons, h, ih]

/-- C5 counterexample: in the `websocket.ts` revision, subscribing the same
callback twice to task A from the initial state leaves the registry with
the duplicate list `[0, 0]`, and a matching `task_update` frame invokes the
callback twice, not once. -/
theorem dup_subscription_counterexample :
    mapGet dupStateW.taskSubscriptions "A" = some [0, 0] ∧
    invokedCallbacks (WS.handleMessage okEnv dupStateW (some dupMsg)).2
      = [(0, 5), (0, 5)] := by
  decide

/-- C5 amended: in the `TaskContext.tsx` revision, calling
`subscribeToTask(t, cb)` twice registers `cb` once — the registry list for
`t` gains a single occurrence of `cb`, stays duplicate-free, and a matching
`task_update` frame invokes `cb` exactly once; in the `websocket.ts`
revision the callback is pushed unconditionally, so the double subscription
appends `cb` twice and a matching frame invokes it twice. -/
theorem dup_subscription_amended (env : Env) (stT : TC.State) (stW : WS.State)
    (t : String) (cb d : Nat) (hne : t ≠ "")
    (hnotinT : cb ∉ (mapGet stT.taskSubscriptions t).getD [])
    (hnodupT : ((mapGet stT.taskSubscriptions t).getD []).Nodup)
    (hnotinW : cb ∉ (mapGet stW.taskSubscriptions t).getD []) :
    mapGet ((TC.subscribeToTask env (TC.subscribeToTask env stT t cb).1 t cb).1.taskSubscriptions) t
      = some ((mapGet stT.taskSubscriptions t).getD [] ++ [cb]) ∧
    ((mapGet ((TC.subscribeToTask env (TC.subscribeToTask env stT t cb).1 t cb).1.taskSubscriptions) t).getD []).count cb = 1 ∧
    ((mapGet ((TC.subscribeToTask env (TC.subscribeToTask env stT t cb).1 t cb).1.taskSubscriptions) t).getD []).Nodup ∧
    (invokedCallbacks (TC.handleMessage env
        (TC.subscribeToTask env (TC.subscribeToTask env stT t cb).1 t cb).1
        (some ⟨"task_update", some t, d⟩)).2).count (cb, d) = 1 ∧
    mapGet ((WS.subscribeToTask (WS.subscribeToTask stW t cb).1 t cb).1.taskSubscriptions) t
      = some ((mapGet stW.taskSubscriptions t).getD [] ++ [cb, cb]) ∧
    (invokedCallbacks (WS.handleMessage env
        (WS.subscribeToTask (WS.subscribeToTask stW t cb).1 t cb).1
        (some ⟨"task_update", some t, d⟩)).2).count (cb, d) = 2 := by
  have hts1 : (TC.subscribeToTask env stT t cb).1.taskSubscriptions
      = mapSet stT.taskSubscriptions t
          ((mapGet stT.taskSubscriptions t).getD [] ++ [cb]) := by
    rw [TC.subscribeToTask_ts env stT t cb hne, TC.registerCallback_eq]
    simp [hnotinT]
  have hget1 : mapGet (TC.subscribeToTask env stT t cb).1.taskSubscriptions t
      = some ((mapGet stT.taskSubscriptions t).getD [] ++ [cb]) := by
    rw [hts1]
    exact mapGet_mapSet_self _ _ _
  have hts2 : (TC.subscribeToTask env (TC.subscribeToTask env stT t cb).1 t cb).1.taskSubscriptions
      = (TC.subscribeToTask env stT t cb).1.taskSubscriptions := by
    rw [TC.subscribeToTask_ts env _ t cb hne, TC.registerCallback_eq, hget1]
    simp only [Option.getD_some, List.mem_append, List.mem_singleton, or_true,
      if_true]
    exact mapSet_eq_self _ _ _ hget1
  have hget2 : mapGet ((TC.subscribeToTask env (TC.subscribeToTask env stT t cb).1 t cb).1.taskSubscriptions) t
      = some ((mapGet stT.taskSubscriptions t).getD [] ++ [cb]) := by
    rw [hts2, hget1]
  have hcount : ((mapGet stT.taskSubscriptions t).getD [] ++ [cb]).count cb = 1 := by
    rw [List.count_append]
    rw [List.count_eq_zero.mpr hnotinT]
    simp
  have htsW1 : (WS.subscribeToTask stW t cb).1.taskSubscriptions
      = mapSet stW.taskSubscriptions t
          ((mapGet stW.taskSubscriptions t).getD [] ++ [cb]) := by
    rw [WS.subscribeToTaskW_ts, WS.registerCallbackW_eq]
  have hgetW1 : mapGet (WS.subscribeToTask stW t cb).1.taskSubscriptions t
      = some ((mapGet stW.taskSubscriptions t).getD [] ++ [cb]) := by
    rw [htsW1]
    exact mapGet_mapSet_self _ _ _
  have htsW2 : (WS.subscribeToTask (WS.subscribeToTask stW t cb).1 t cb).1.taskSubscriptions
      = mapSet stW.taskSubscriptions t
          ((mapGet stW.taskSubscriptions t).getD [] ++ [cb, cb]) := by
    rw [WS.subscribeToTaskW_ts, WS.registerCallbackW_eq, hgetW1, htsW1,
      mapSet_mapSet]
    simp
  have hgetW2 : mapGet ((WS.subscribeToTask (WS.subscribeToTask stW t cb).1 t cb).1.taskSubscriptions) t
      = some ((mapGet stW.taskSubscriptions t).getD [] ++ [cb, cb]) := by
    rw [htsW2]
    exact mapGet_mapSet_self _ _ _
  have hcountW : ((mapGet stW.taskSubscriptions t).getD [] ++ [cb, cb]).count cb = 2 := by
    rw [List.count_append]
    rw [List.count_eq_zero.mpr hnotinW]
    simp
  have htr : truthyId (some t) = true := by simp [truthyId, hne]
  refine ⟨hget2, by rw [hget2]; simpa using hcount, ?_, ?_, hgetW2, ?_⟩
  · rw [hget2]
    simp [List.nodup_append, hnodupT, hnotinT]
  · simp only [TC.handleMessage, htr]
    simp [TC.invokedCallbacks_append, TC.invokedCallbacks_runHandlers,
      TC.invokedCallbacks_runCallbacks, hget2]
    rw [count_pair_map]
    exact List.count_eq_zero.mpr hnotinT
  · simp only [WS.handleMessage, htr]
    simp [TC.invokedCallbacks_append, TC.invokedCallbacks_runHandlers,
      TC.invokedCallbacks_runCallbacks, hgetW2]
    rw [count_pair_map]
    exact List.count_eq_zero.mpr hnotinW

/-- Witness for the amended C5 at a concrete double subscription of
callback 0 to task A in both revisions. -/
theorem dup_subscription_amended_witness :
    mapGet ((TC.subscribeToTask okEnv
        (TC.subscribeToTask okEnv TC.initialState "A" 0).1 "A" 0).1.taskSubscriptions) "A"
      = some [0] ∧
    (invokedCallbacks (TC.handleMessage okEnv
        (TC.subscribeToTask okEnv
          (TC.subscribeToTask okEnv TC.initialState "A" 0).1 "A" 0).1
        (some ⟨"task_update", some "A", 5⟩)).2).count (0, 5) = 1 ∧
    mapGet ((WS.subscribeToTask
        (WS.subscribeToTask WS.initialState "A" 0).1 "A" 0).1.taskSubscriptions) "A"
      = some [0, 0] ∧
    (invokedCallbacks (WS.handleMessage okEnv
        (WS.subscribeToTask
          (WS.subscribeToTask WS.initialState "A" 0).1 "A" 0).1
        (some ⟨"task_update", some "A", 5⟩)).2).count (0, 5) = 2 := by
  have h := dup_subscription_amended okEnv TC.initialState WS.initialState
    "A" 0 5 (by decide) (by decide) (by decide) (by decide)
  exact ⟨h.1, h.2.2.2.1, h.2.2.2.2.1, h.2.2.2.2.2⟩

namespace TC

theorem send_connected_ok (env : Env) (st : State) (data : Payload)
    (h1 : isConnected st = true) (h2 : env.wsSendOk data = true) :
    send env st data true 3 = (st, [Effect.wsSend data]) := by
  unfold send
  simp [h1, h2]

theorem replayPending_all_ok (env : Env)
    (hok : ∀ p, env.wsSendOk p = true) :
    ∀ (ts : List String) (s : State), s.ws = some ReadyState.opened →
      replayPending env ts s
        = (s, (ts.filter (fun t => mapHas s.taskSubscriptions t)).map
              (fun t => Effect.wsSend (Payload.subscribeTask t))) := by
  intro ts
  induction ts with
  | nil => intro s _; rfl
  | cons t rest ih =>
      intro s hws
      by_cases h : mapHas s.taskSubscriptions t
      · unfold replayPending
        rw [if_pos h,
          send_connected_ok env s (Payload.subscribeTask t)
            (by simp [isConnected, hws]) (hok _)]
        dsimp only
        rw [ih s hws]
        simp [h]
      · unfold replayPending
        rw [if_neg h, ih s hws]
        simp [h]

end TC

namespace WS

theorem send_connected (st : State) (data : Payload)
    (h : isConnected st = true) : send st data = (st, [Effect.wsSend data]) := by
  unfold send
  simp [h]

theorem replayAll_connected :
    ∀ (ts : List String) (s : State), isConnected s = true →
      replayAll s ts
        = (s, ts.map (fun t => Effect.wsSend (Payload.subscribeTask t))) := by
  intro ts
  induction ts with
  | nil => intro s _; rfl
  | cons t rest ih =>
      intro s hc
      unfold replayAll
      rw [send_connected s (Payload.subscribeTask t) hc]
      dsimp only
      rw [ih s hc]
      rfl

end WS

/-- C2 counterexample: in the `TaskContext.tsx` revision, after subscribing
to tasks A and B while connected, a forced (non-clean) disconnect and a
successful reconnect run the open handler without sending any
`subscribe_task` frame — the registry still holds both subscriptions, but
only tasks in `pendingSubscriptions` (subscribed while disconnected) are
replayed, and that list is empty here.  The claim requires exactly one
frame for each of A and B. -/
theorem replay_counterexample :
    replayTrace4.taskSubscriptions = [("A", [0]), ("B", [1])] ∧
    replayTrace6.ws = some ReadyState.connecting ∧
    (TC.socketOpens okEnv replayTrace6).1.ws = some ReadyState.opened ∧
    (TC.socketOpens okEnv replayTrace6).1.taskSubscriptions
      = [("A", [0]), ("B", [1])] ∧
    countSends (Payload.subscribeTask "A") (TC.socketOpens okEnv replayTrace6).2 = 0 ∧
    countSends (Payload.subscribeTask "B") (TC.socketOpens okEnv replayTrace6).2 = 0 := by
  decide

/-- C2 amended: on a successful open with only succeeding transmissions,
the `TaskContext.tsx` open handler sends exactly one `subscribe_task` frame
per `taskId` in `pendingSubscriptions` that is still present in the
registry — in list order — so subscriptions made while connected are not
replayed after a forced disconnect; the `websocket.ts` revision sends
exactly one `subscribe_task` frame per registered `taskId` (one per
registry key), as the original claim states. -/
theorem replay_amended (env : Env) (stT : TC.State) (stW : WS.State)
    (hok : ∀ p, env.wsSendOk p = true)
    (hwsT : stT.ws = some ReadyState.opened)
    (hwsW : stW.ws = some ReadyState.opened) :
    (TC.handleOpen env stT).2
      = (stT.pendingSubscriptions.filter
          (fun t => mapHas stT.taskSubscriptions t)).map
          (fun t => Effect.wsSend (Payload.subscribeTask t)) ∧
    (WS.handleOpen stW).2
      = (stW.taskSubscriptions.map Prod.fst).map
          (fun t => Effect.wsSend (Payload.subscribeTask t)) := by
  constructor
  · unfold TC.handleOpen
    dsimp only
    rw [TC.replayPending_all_ok env hok stT.pendingSubscriptions
        { stT with reconnectAttempts := 0
                   isConnecting := false
                   connectionTimeout := false
                   backendAvailable := true
                   pendingSubscriptions := [] } hwsT]
  · unfold WS.handleOpen
    dsimp only
    rw [WS.replayAll_connected (stW.taskSubscriptions.map Prod.fst)
        { stW with reconnectAttempts := 0
                   isConnecting := false
                   connectionTimeout := false
                   backendAvailable := true }
        (by simp [WS.isConnected, hwsW])]

/-- Witness for the amended C2: with pending subscription A and registered
tasks A and B, the `TaskContext.tsx` open handler replays exactly A, while
the `websocket.ts` open handler replays A and B. -/
theorem replay_amended_witness :
    (TC.handleOpen okEnv replayStateT).2
      = [Effect.wsSend (Payload.subscribeTask "A")] ∧
    (WS.handleOpen replayStateW).2
      = [Effect.wsSend (Payload.subscribeTask "A"),
         Effect.wsSend (Payload.subscribeTask "B")] := by
  have h := replay_amended okEnv replayStateT replayStateW
    (fun _ => rfl) rfl rfl
  exact ⟨h.1, h.2⟩

namespace TC

theorem attemptReconnect_backendAvailable (env : Env) (st : State) :
    (attemptReconnect env st).1.backendAvailable = st.backendAvailable := by
  cases h : st.reconnectTimeoutId <;> simp [attemptReconnect, h]

theorem connect_backendAvailable (env : Env) (st : State) :
    (connect env st).1.backendAvailable = st.backendAvailable := by
  unfold connect
  split
  · rfl
  · split
    · rfl
    · split
      · rfl
      · exact attemptReconnect_backendAvailable env _

theorem queueMessage_backendAvailable (st : State) (m : Payload) (r : Bool)
    (mr : Nat) :
    (queueMessage st m r mr).1.backendAvailable = st.backendAvailable := by
  unfold queueMessage
  dsimp only
  split <;> rfl

theorem send_backendAvailable (env : Env) (st : State) (data : Payload)
    (retry : Bool) (mr : Nat) :
    (send env st data retry mr).1.backendAvailable = st.backendAvailable := by
  unfold send
  by_cases hc : isConnected st <;> simp [hc]
  · by_cases hk : env.wsSendOk data <;> simp [hk]
    cases retry <;> simp [queueMessage_backendAvailable]
  · cases retry <;> simp
    · split
      · rw [sendUnavailableFallback_fst]
      · rfl
    · split
      · rw [connect_backendAvailable]
        exact queueMessage_backendAvailable st data true mr
      · exact queueMessage_backendAvailable st data true mr

theorem replayPending_backendAvailable (env : Env) :
    ∀ (ts : List String) (s : State),
      (replayPending env ts s).1.backendAvailable = s.backendAvailable := by
  intro ts
  induction ts with
  | nil => intro s; rfl
  | cons t rest ih =>
      intro s
      unfold replayPending
      split
      · dsimp only
        rw [ih, send_backendAvailable]
      · exact ih s

theorem handleOpen_backendAvailable (env : Env) (st : State) :
    (handleOpen env st).1.backendAvailable = true := by
  unfold handleOpen
  dsimp only
  split
  · rw [replayPending_backendAvailable]
  · rw [replayPending_backendAvailable]

end TC

/-- C1 counterexample: a concrete run that exhausts the attempt budget —
ten failed connection attempts, the last force-closed by the connection
timeout — reaches a state with `reconnectAttempts = 10` and
`backendAvailable = false`.  From that state `connect()` is a no-op as the
claim says, but calling `disconnect()` and then `connect()` does NOT start
a new connection attempt: `disconnect()` resets the attempt counter yet
leaves the unavailable mark, so the subsequent `connect()` opens no
transport. -/
theorem terminal_unavailability_counterexample :
    exhaustedState.reconnectAttempts = 10 ∧
    exhaustedState.backendAvailable = false ∧
    (TC.connect okEnv exhaustedState).2 = [] ∧
    (TC.disconnect exhaustedState).1.reconnectAttempts = 0 ∧
    (TC.disconnect exhaustedState).1.backendAvailable = false ∧
    (TC.connect okEnv (TC.disconnect exhaustedState).1).2 = [] ∧
    (TC.connect okEnv (TC.disconnect exhaustedState).1).1.ws = none := by
  decide

/-- C1 amended: once the manager has marked the backend unavailable (the
terminal condition reached by exhausting the attempt budget), `connect()`
is a no-op that opens no transport; `disconnect()` resets the attempt
counter but leaves the unavailable mark in place, so a subsequent
`connect()` is still a no-op — the mark is cleared only when a socket open
event runs `handleOpen`. -/
theorem terminal_unavailability_amended (env : Env) (st : TC.State)
    (h : st.backendAvailable = false) :
    TC.connect env st = (st, []) ∧
    (TC.disconnect st).1.backendAvailable = false ∧
    TC.connect env (TC.disconnect st).1 = ((TC.disconnect st).1, []) ∧
    (TC.handleOpen env st).1.backendAvailable = true := by
  have hdb : (TC.disconnect st).1.backendAvailable = false := by
    unfold TC.disconnect
    cases hw : st.ws <;> by_cases hb : st.isBrowser <;> simp [hw, hb, h]
  have hnoop : ∀ s : TC.State, s.backendAvailable = false →
      TC.connect env s = (s, []) := by
    intro s hs
    unfold TC.connect
    by_cases hb : s.isBrowser <;> simp [hb, hs]
  exact ⟨hnoop st h, hdb, hnoop _ hdb, TC.handleOpen_backendAvailable env st⟩

/-- Witness for the amended C1 at a concrete unavailable state. -/
theorem terminal_unavailability_amended_witness :
    TC.connect okEnv unavailState = (unavailState, []) ∧
    (TC.disconnect unavailState).1.backendAvailable = false ∧
    TC.connect okEnv (TC.disconnect unavailState).1
      = ((TC.disconnect unavailState).1, []) ∧
    (TC.handleOpen okEnv unavailState).1.backendAvailable = true :=
  terminal_unavailability_amended okEnv unavailState rfl

theorem mapGet_mapSet_ne (m : List (String × List Nat)) (k k' : String)
    (v : List Nat) (h : k' ≠ k) : mapGet (mapSet m k v) k' = mapGet m k' := by
  have hks : ¬k = k' := fun hh => h hh.symm
  induction m with
  | nil => simp [mapSet, mapGet, hks]
  | cons p rest ih =>
      obtain ⟨a, b⟩ := p
      by_cases ha : a = k
      · subst ha
        simp [mapSet, mapGet, hks]
      · simp [mapSet, mapGet, ha, ih]

theorem mapGet_mapDelete_ne (m : List (String × List Nat)) (k k' : String)
    (h : k' ≠ k) : mapGet (mapDelete m k) k' = mapGet m k' := by
  have hks : ¬k = k' := fun hh => h hh.symm
  induction m with
  | nil => simp [mapDelete]
  | cons p rest ih =>
      obtain ⟨a, b⟩ := p
      by_cases ha : a = k
      · subst ha
        simp [mapDelete, mapGet, hks, ih]
      · simp [mapDelete, mapGet, ha, ih]

namespace TC

theorem send_pending (env : Env) (st : State) (data : Payload) (retry : Bool)
    (mr : Nat) :
    (send env st data retry mr).1.pendingSubscriptions
      = st.pendingSubscriptions := by
  unfold send
  by_cases hc : isConnected st <;> simp [hc]
  · by_cases hk : env.wsSendOk data <;> simp [hk]
    cases retry <;> simp [queueMessage_pendingSubscriptions]
  · cases retry <;> simp
    · split
      · rw [sendUnavailableFallback_fst]
      · rfl
    · split
      · rw [connect_pendingSubscriptions]
        exact queueMessage_pendingSubscriptions st data true mr
      · exact queueMessage_pendingSubscriptions st data true mr

theorem disconnect_ts (st : State) :
    (disconnect st).1.taskSubscriptions = st.taskSubscriptions := by
  unfold disconnect
  cases hw : st.ws <;> by_cases hb : st.isBrowser <;> simp [hw, hb]

theorem disconnect_pending (st : State) :
    (disconnect st).1.pendingSubscriptions = st.pendingSubscriptions := by
  unfold disconnect
  cases hw : st.ws <;> by_cases hb : st.isBrowser <;> simp [hw, hb]

theorem handleClose_ts (env : Env) (st : State) (wc : Bool) :
    (handleClose env st wc).1.taskSubscriptions = st.taskSubscriptions := by
  unfold handleClose
  dsimp only
  split
  · rw [attemptReconnect_taskSubscriptions]
  · split <;> rfl

theorem handleClose_pending (env : Env) (st : State) (wc : Bool) :
    (handleClose env st wc).1.pendingSubscriptions = st.pendingSubscriptions := by
  unfold handleClose
  dsimp only
  split
  · rw [attemptReconnect_pendingSubscriptions]
  · split <;> rfl

theorem handleError_ts (env : Env) (st : State) :
    (handleError env st).1.taskSubscriptions = st.taskSubscriptions := by
  unfold handleError
  cases hw : st.ws <;> simp [hw, attemptReconnect_taskSubscriptions]

theorem handleError_pending (env : Env) (st : State) :
    (handleError env st).1.pendingSubscriptions = st.pendingSubscriptions := by
  unfold handleError
  cases hw : st.ws <;> simp [hw, attemptReconnect_pendingSubscriptions]

theorem handleMessage_ts (env : Env) (st : State) (raw : Option InMessage) :
    (handleMessage env st raw).1.taskSubscriptions = st.taskSubscriptions := by
  cases raw with
  | none => rfl
  | some msg =>
      unfold handleMessage
      dsimp only
      split <;> rfl

theorem handleMessage_pending (env : Env) (st : State) (raw : Option InMessage) :
    (handleMessage env st raw).1.pendingSubscriptions
      = st.pendingSubscriptions := by
  cases raw with
  | none => rfl
  | some msg =>
      unfold handleMessage
      dsimp only
      split <;> rfl

theorem processMessageQueue_ts (env : Env) (st : State) :
    (processMessageQueue env st).1.taskSubscriptions = st.taskSubscriptions := by
  unfold processMessageQueue
  dsimp only
  split
  · rfl
  · split <;> rfl

theorem processMessageQueue_pending (env : Env) (st : State) :
    (processMessageQueue env st).1.pendingSubscriptions
      = st.pendingSubscriptions := by
  unfold processMessageQueue
  dsimp only
  split
  · rfl
  · split <;> rfl

theorem flushTick_ts (env : Env) (st : State) :
    (flushTick env st).1.taskSubscriptions = st.taskSubscriptions := by
  unfold flushTick
  split
  · exact processMessageQueue_ts env st
  · rfl

theorem flushTick_pending (env : Env) (st : State) :
    (flushTick env st).1.pendingSubscriptions = st.pendingSubscriptions := by
  unfold flushTick
  split
  · exact processMessageQueue_pending env st
  · rfl

theorem pingTick_ts (env : Env) (st : State) :
    (pingTick env st).1.taskSubscriptions = st.taskSubscriptions := by
  unfold pingTick sendPing
  split
  · split
    · exact send_ts env st (Payload.ping env.now) false 3
    · rfl
  · rfl

theorem pingTick_pending (env : Env) (st : State) :
    (pingTick env st).1.pendingSubscriptions = st.pendingSubscriptions := by
  unfold pingTick sendPing
  split
  · split
    · exact send_pending env st (Payload.ping env.now) false 3
    · rfl
  · rfl

theorem reconnectTimerFires_ts (env : Env) (st : State) :
    (reconnectTimerFires env st).1.taskSubscriptions = st.taskSubscriptions := by
  unfold reconnectTimerFires
  cases h : st.reconnectTimeoutId <;> simp [h, connect_taskSubscriptions]

theorem reconnectTimerFires_pending (env : Env) (st : State) :
    (reconnectTimerFires env st).1.pendingSubscriptions
      = st.pendingSubscriptions := by
  unfold reconnectTimerFires
  cases h : st.reconnectTimeoutId <;> simp [h, connect_pendingSubscriptions]

theorem connectionTimeoutFires_ts (env : Env) (st : State) :
    (connectionTimeoutFires env st).1.taskSubscriptions
      = st.taskSubscriptions := by
  unfold connectionTimeoutFires
  split
  · rfl
  · dsimp only
    split
    · split
      · dsimp only
        rw [attemptReconnect_taskSubscriptions]
      · rfl
    · rfl

theorem connectionTimeoutFires_pending (env : Env) (st : State) :
    (connectionTimeoutFires env st).1.pendingSubscriptions
      = st.pendingSubscriptions := by
  unfold connectionTimeoutFires
  split
  · rfl
  · dsimp only
    split
    · split
      · dsimp only
        rw [attemptReconnect_pendingSubscriptions]
      · rfl
    · rfl

theorem replayPending_pending (env : Env) :
    ∀ (ts : List String) (s : State),
      (replayPending env ts s).1.pendingSubscriptions
        = s.pendingSubscriptions := by
  intro ts
  induction ts with
  | nil => intro s; rfl
  | cons t rest ih =>
      intro s
      unfold replayPending
      split
      · dsimp only
        rw [ih, send_pending]
      · exact ih s

theorem handleOpen_pending (env : Env) (st : State) :
    (handleOpen env st).1.pendingSubscriptions = [] := by
  unfold handleOpen
  dsimp only
  split
  · rw [replayPending_pending]
  · rw [replayPending_pending]

end TC

namespace TC

theorem registerCallback_get_ne (ts : List (String × List Nat)) (t u : String)
    (cb : Nat) (h : u ≠ t) :
    mapGet (registerCallback ts t cb) u = mapGet ts u := by
  rw [registerCallback_eq]
  exact mapGet_mapSet_ne _ _ _ _ h

theorem registerCallback_get_self_ne (ts : List (String × List Nat))
    (t : String) (cb : Nat) :
    (mapGet (registerCallback ts t cb) t).getD [] ≠ [] := by
  rw [registerCallback_eq, mapGet_mapSet_self]
  by_cases hmem : cb ∈ (mapGet ts t).getD []
  · simp only [hmem, if_true, Option.getD_some]
    exact List.ne_nil_of_mem hmem
  · simp [hmem]

theorem subscribeToTask_empty (env : Env) (st : State) (cb : Nat) :
    (subscribeToTask env st "" cb).1 = st := by
  unfold subscribeToTask
  simp

theorem subscribeToTask_pending_spec (env : Env) (st : State) (t : String)
    (cb : Nat) (hne : t ≠ "") :
    (subscribeToTask env st t cb).1.pendingSubscriptions
        = st.pendingSubscriptions
    ∨ ((subscribeToTask env st t cb).1.pendingSubscriptions
          = st.pendingSubscriptions ++ [t] ∧ t ∉ st.pendingSubscriptions) := by
  unfold subscribeToTask
  rw [if_neg hne]
  dsimp only
  split
  · left
    rw [send_pending]
  · split
    · right
      constructor
      · split
        · rw [connect_pendingSubscriptions]
        · rfl
      · rename_i hc hnp
        simpa using hnp
    · left
      rfl

theorem unsubscribeFromTask_spec (env : Env) (st : State) (t : String)
    (cb : Nat) :
    ((unsubscribeFromTask env st t cb).1.taskSubscriptions
        = st.taskSubscriptions ∧
     (unsubscribeFromTask env st t cb).1.pendingSubscriptions
        = st.pendingSubscriptions)
    ∨ (∃ cbs', cbs' ≠ [] ∧
        (unsubscribeFromTask env st t cb).1.taskSubscriptions
          = mapSet st.taskSubscriptions t cbs' ∧
        (unsubscribeFromTask env st t cb).1.pendingSubscriptions
          = st.pendingSubscriptions)
    ∨ ((unsubscribeFromTask env st t cb).1.taskSubscriptions
          = mapDelete st.taskSubscriptions t ∧
       (unsubscribeFromTask env st t cb).1.pendingSubscriptions
          = st.pendingSubscriptions.erase t) := by
  unfold unsubscribeFromTask
  dsimp only
  split
  · split
    · right; right
      constructor
      · split
        · rw [send_ts]
        · rfl
      · split
        · rw [send_pending]
        · rfl
    · right; left
      rename_i hcon hlen
      refine ⟨((mapGet st.taskSubscriptions t).getD []).erase cb, ?_, rfl, rfl⟩
      intro hnil
      exact hlen (by rw [hnil]; rfl)
  · left
    exact ⟨rfl, rfl⟩

end TC

theorem pendingInv_preserved {st st' : TC.State}
    (hts : st'.taskSubscriptions = st.taskSubscriptions)
    (hp : st'.pendingSubscriptions = st.pendingSubscriptions)
    (h : pendingInv st) : pendingInv st' := by
  unfold pendingInv at h ⊢
  rw [hts, hp]
  exact h

/-- C10: in every state reachable from construction through the public
operations and event callbacks — under arbitrary environments — the
pending-subscription list contains no duplicate `taskId` and every pending
`taskId` is a key of the subscription registry with a non-empty callback
list. -/
theorem pending_subscription_invariant (st : TC.State) (h : Reachable st) :
    pendingInv st := by
  induction h with
  | init =>
      refine ⟨List.nodup_nil, ?_⟩
      intro t ht
      simp [TC.initialState] at ht
  | step env op hr ih =>
      rename_i st0
      cases op with
      | opConnect =>
          exact pendingInv_preserved (TC.connect_taskSubscriptions env st0)
            (TC.connect_pendingSubscriptions env st0) ih
      | opDisconnect =>
          exact pendingInv_preserved (TC.disconnect_ts st0)
            (TC.disconnect_pending st0) ih
      | opSend d r mr =>
          exact pendingInv_preserved (TC.send_ts env st0 d r mr)
            (TC.send_pending env st0 d r mr) ih
      | opSubscribe t cb =>
          by_cases hne : t = ""
          · subst hne
            show pendingInv (TC.subscribeToTask env st0 "" cb).1
            rw [TC.subscribeToTask_empty env st0 cb]
            exact ih
          · show pendingInv (TC.subscribeToTask env st0 t cb).1
            have hts := TC.subscribeToTask_ts env st0 t cb hne
            rcases TC.subscribeToTask_pending_spec env st0 t cb hne with
              hp | ⟨hp, hnin⟩
            · constructor
              · rw [hp]; exact ih.1
              · intro u hu
                rw [hp] at hu
                rw [hts]
                by_cases hut : u = t
                · subst hut
                  exact TC.registerCallback_get_self_ne _ _ _
                · rw [TC.registerCallback_get_ne _ _ _ _ hut]
                  exact ih.2 u hu
            · constructor
              · rw [hp]
                simp [List.nodup_append, ih.1, hnin]
              · intro u hu
                rw [hp] at hu
                rw [hts]
                by_cases hut : u = t
                · subst hut
                  exact TC.registerCallback_get_self_ne _ _ _
                · rw [TC.registerCallback_get_ne _ _ _ _ hut]
                  apply ih.2
                  rcases List.mem_append.mp hu with h1 | h1
                  · exact h1
                  · exact absurd (by simpa using h1) hut
      | opUnsubscribe t cb =>
          show pendingInv (TC.unsubscribeFromTask env st0 t cb).1
          rcases TC.unsubscribeFromTask_spec env st0 t cb with
            ⟨hts, hp⟩ | ⟨cbs', hcne, hts, hp⟩ | ⟨hts, hp⟩
          · exact pendingInv_preserved hts hp ih
          · constructor
            · rw [hp]; exact ih.1
            · intro u hu
              rw [hp] at hu
              rw [hts]
              by_cases hut : u = t
              · subst hut
                rw [mapGet_mapSet_self]
                simpa using hcne
              · rw [mapGet_mapSet_ne _ _ _ _ hut]
                exact ih.2 u hu
          · constructor
            · rw [hp]; exact ih.1.erase t
            · intro u hu
              rw [hp] at hu
              have hmem := (List.Nodup.mem_erase_iff ih.1).mp hu
              rw [hts, mapGet_mapDelete_ne _ _ _ hmem.1]
              exact ih.2 u hmem.2
      | opAddHandler hh =>
          exact pendingInv_preserved rfl rfl ih
      | opRemoveHandler hh =>
          exact pendingInv_preserved rfl rfl ih
      | opSocketOpen =>
          show pendingInv (TC.socketOpens env st0).1
          unfold TC.socketOpens
          split
          · constructor
            · rw [TC.handleOpen_pending]
              exact List.nodup_nil
            · intro u hu
              rw [TC.handleOpen_pending] at hu
              simp at hu
          · exact ih
      | opSocketClose wc =>
          exact pendingInv_preserved (TC.handleClose_ts env st0 wc)
            (TC.handleClose_pending env st0 wc) ih
      | opSocketError =>
          exact pendingInv_preserved (TC.handleError_ts env st0)
            (TC.handleError_pending env st0) ih
      | opMessage m =>
          exact pendingInv_preserved (TC.handleMessage_ts env st0 m)
            (TC.handleMessage_pending env st0 m) ih
      | opReconnectTimer =>
          exact pendingInv_preserved (TC.reconnectTimerFires_ts env st0)
            (TC.reconnectTimerFires_pending env st0) ih
      | opConnTimeout =>
          exact pendingInv_preserved (TC.connectionTimeoutFires_ts env st0)
            (TC.connectionTimeoutFires_pending env st0) ih
      | opFlushTick =>
          exact pendingInv_preserved (TC.flushTick_ts env st0)
            (TC.flushTick_pending env st0) ih
      | opPingTick =>
          exact pendingInv_preserved (TC.pingTick_ts env st0)
            (TC.pingTick_pending env st0) ih

/-- Witness for C10 at the state reached by one subscription from the
initial state. -/
theorem pending_subscription_invariant_witness :
    pendingInv (step okEnv TC.initialState (Op.opSubscribe "A" 0)) :=
  pending_subscription_invariant _
    (Reachable.step okEnv (Op.opSubscribe "A" 0) Reachable.init)
